import Mathlib

/-!
Verification of the qbit2track filename-parsing and catalog-matching engine.

The definitions below are a shallow embedding of the Python source:

  * `src/qbit2track/media/filename_analyzer.py` — `FilenameAnalyzer`
  * `src/qbit2track/media/file_analyzer.py` — `FileAnalyzer._clean_codec_name`
    and the merge step `FilenameAnalyzer._enhance_with_file_analysis`
  * `src/qbit2track/media/tmdb_matcher.py` — `TMDBMatcher`

Python's `re` module is embedded as a small backtracking engine with
Python's leftmost-first semantics (leftmost start position wins; at a
given position alternatives are tried left to right; greedy quantifiers
try the longest repetition first, non-greedy the shortest).  Character
classes use the ASCII reading of `\w`, `\d`, `\s`; every filename and
pattern exercised by the theorems below is ASCII, where the two readings
agree.  External effects (the TMDB HTTP client, `difflib` similarity,
the clock) are parameters of the corresponding definitions.
-/

namespace Qbit2Track

/-! ## Python string primitives (ASCII) -/

/-- Lower-case one character, as Python `str.lower` does on ASCII. -/
def pyLowerChar (c : Char) : Char :=
  if 65 ≤ c.toNat ∧ c.toNat ≤ 90 then Char.ofNat (c.toNat + 32) else c

/-- Upper-case one character, as Python `str.upper` does on ASCII. -/
def pyUpperChar (c : Char) : Char :=
  if 97 ≤ c.toNat ∧ c.toNat ≤ 122 then Char.ofNat (c.toNat - 32) else c

/-- Python `str.lower`. -/
def pyLower (s : String) : String := ⟨s.data.map pyLowerChar⟩

/-- Python `str.upper`. -/
def pyUpper (s : String) : String := ⟨s.data.map pyUpperChar⟩

/-- ASCII lower-case letter test (Python `c.islower()` on ASCII). -/
def isLowerAscii (c : Char) : Bool := 97 ≤ c.toNat && c.toNat ≤ 122

/-- Whitespace characters recognized by Python `str.strip` / `\s`. -/
def isSpaceChar (c : Char) : Bool :=
  c == ' ' || c == '\t' || c == '\n' || c == '\r' || c == '\x0b' || c == '\x0c'

/-- ASCII decimal digit test (`\d`). -/
def isDigitChar (c : Char) : Bool := 48 ≤ c.toNat && c.toNat ≤ 57

/-- ASCII word character test (`\w`): letter, digit or underscore. -/
def isWordChar (c : Char) : Bool :=
  isDigitChar c || (65 ≤ c.toNat && c.toNat ≤ 90) ||
    (97 ≤ c.toNat && c.toNat ≤ 122) || c == '_'

/-- Python `str.rstrip()`: drop trailing whitespace. -/
def pyRstrip (s : String) : String :=
  ⟨(s.data.reverse.dropWhile isSpaceChar).reverse⟩

/-- Python `str.strip()`: drop leading and trailing whitespace. -/
def pyStrip (s : String) : String :=
  ⟨((s.data.dropWhile isSpaceChar).reverse.dropWhile isSpaceChar).reverse⟩

/-- Python `str.title()` (ASCII): upper-case every letter that follows a
non-letter, lower-case every other letter. -/
def pyTitleCaseGo : Bool → List Char → List Char
  | _, [] => []
  | prevAlpha, c :: rest =>
    let isAlpha := (65 ≤ c.toNat && c.toNat ≤ 90) || (97 ≤ c.toNat && c.toNat ≤ 122)
    let c' := if isAlpha then (if prevAlpha then pyLowerChar c else pyUpperChar c) else c
    c' :: pyTitleCaseGo isAlpha rest

/-- Python `str.title()` on a string. -/
def pyTitleCase (s : String) : String := ⟨pyTitleCaseGo false s.data⟩

/-- Does `sub` occur at the head of `s`? -/
def isPrefixL : List Char → List Char → Bool
  | [], _ => true
  | _ :: _, [] => false
  | a :: as, b :: bs => a == b && isPrefixL as bs

/-- Does `sub` occur anywhere in `s`? -/
def containsSubL (sub : List Char) : List Char → Bool
  | [] => isPrefixL sub []
  | c :: rest => isPrefixL sub (c :: rest) || containsSubL sub rest

/-- Python substring containment `sub in s`. -/
def pyContains (s sub : String) : Bool := containsSubL sub.data s.data

/-- Worker for `pySplitOn`: split at every non-overlapping occurrence of
`sep`, scanning left to right (the fuel exceeds the input length and is
never exhausted for the non-empty separators used). -/
def splitOnLGo (sep : List Char) : Nat → List Char → List Char → List (List Char)
  | 0, acc, rest => [acc.reverse ++ rest]
  | _ + 1, acc, [] => [acc.reverse]
  | fuel + 1, acc, c :: rest =>
    if isPrefixL sep (c :: rest) then
      acc.reverse :: splitOnLGo sep fuel [] ((c :: rest).drop sep.length)
    else splitOnLGo sep fuel (c :: acc) rest

/-- Python `s.split(sep)` for a non-empty separator. -/
def pySplitOn (s sep : String) : List String :=
  (splitOnLGo sep.data (s.data.length + 1) [] s.data).map (fun l => ⟨l⟩)

/-- Worker for `pySplitWs`. -/
def splitWsGo : List Char → List Char → List String
  | acc, [] => if acc.isEmpty then [] else [⟨acc.reverse⟩]
  | acc, c :: rest =>
    if isSpaceChar c then
      if acc.isEmpty then splitWsGo [] rest
      else (⟨acc.reverse⟩ : String) :: splitWsGo [] rest
    else splitWsGo (c :: acc) rest

/-- Python `str.split()` with no argument: split on whitespace runs,
dropping empty pieces. -/
def pySplitWs (s : String) : List String := splitWsGo [] s.data

/-- Python `' '.join(words)`. -/
def joinWords : List String → String
  | [] => ""
  | [w] => w
  | w :: rest => w ++ " " ++ joinWords rest

/-- Digits-only string to `Nat`, as Python `int` on the digit strings
produced by `\d` captures. -/
def pyStrToNat (s : String) : Nat :=
  s.data.foldl (fun acc c => 10 * acc + (c.toNat - 48)) 0

/-- Python `pathlib.Path(p).name` (POSIX): the last non-empty `/`
component, with `.` and `..` giving the empty name. -/
def pyPathName (s : String) : String :=
  let comp := ((pySplitOn s "/").filter (· ≠ "")).getLastD ""
  if comp = "." ∨ comp = ".." then "" else comp

/-- Python `pathlib.Path(p).stem`: the name with its last extension
removed, unless the only dot is the leading one. -/
def pyStem (s : String) : String :=
  let name := pyPathName s
  let chars := name.data
  let lastDot := (List.range chars.length).filter
    (fun i => chars.get? i = some '.') |>.getLastD 0
  if lastDot > 0 then ⟨chars.take lastDot⟩ else name

/-! ## Regular-expression engine

A fueled CPS backtracking matcher implementing the subset of Python `re`
used by the analyzer: character classes, alternation, bounded and
unbounded greedy/non-greedy repetition, capturing groups, the word
boundary `\b` and the end anchor `$`, with an optional `re.IGNORECASE`
flag. -/

/-- Character class atoms of the pattern language. -/
inductive CC where
  /-- a literal character -/
  | one : Char → CC
  /-- `.` — any character except a newline -/
  | anyNotNl : CC
  /-- `\d` -/
  | digitC : CC
  /-- `\w` -/
  | wordC : CC
  /-- `\W` -/
  | nonwordC : CC
  /-- `\s` -/
  | spaceC : CC
  /-- an explicit character set `[...]` -/
  | setC : List Char → CC
deriving DecidableEq, Repr

/-- Regular expressions of the pattern language. -/
inductive Re where
  /-- the empty pattern -/
  | eps : Re
  /-- one character matching a class -/
  | cls : CC → Re
  /-- concatenation -/
  | seq : Re → Re → Re
  /-- alternation, left alternative preferred -/
  | alt : Re → Re → Re
  /-- `{lo,hi}` repetition (`hi = none` is unbounded); the flag is true
  for greedy repetition -/
  | rep : Nat → Option Nat → Bool → Re → Re
  /-- numbered capturing group -/
  | grp : Nat → Re → Re
  /-- `\b` -/
  | wordB : Re
  /-- `$` -/
  | lineEnd : Re
deriving DecidableEq, Repr

/-- Does one character match a class, under the optional ignore-case
flag (Python compares case-insensitively by lowering both sides)? -/
def ccMatch (ic : Bool) : CC → Char → Bool
  | .one a, c => if ic then pyLowerChar a == pyLowerChar c else a == c
  | .anyNotNl, c => c != '\n'
  | .digitC, c => isDigitChar c
  | .wordC, c => isWordChar c
  | .nonwordC, c => !isWordChar c
  | .spaceC, c => isSpaceChar c
  | .setC l, c => if ic then (l.map pyLowerChar).contains (pyLowerChar c)
                  else l.contains c

/-- Captured group spans: (group index, start, stop); the most recent
assignment for an index is first. -/
abbrev Groups := List (Nat × Nat × Nat)

/-- Record a group span. -/
def setGrp (g : Groups) (n i j : Nat) : Groups := (n, i, j) :: g

/-- Look up the span last recorded for a group index. -/
def grpLookup (g : Groups) (n : Nat) : Option (Nat × Nat) :=
  (g.find? (fun e => e.1 = n)).map (fun e => e.2)

/-- Is position `i` a word boundary of `s` (`\b`)? -/
def atWordBoundary (s : List Char) (i : Nat) : Bool :=
  let before := if i = 0 then false else
    match s.get? (i - 1) with | some c => isWordChar c | none => false
  let here := match s.get? i with | some c => isWordChar c | none => false
  before != here

/-- Is position `i` a match for `$` (end of string, or just before a
final newline)? -/
def atLineEnd (s : List Char) (i : Nat) : Bool :=
  i == s.length || (i + 1 == s.length && s.get? i == some '\n')

/-- First-of-two on optional results, for backtracking alternatives. -/
def orTry (a : Option (Nat × Groups)) (b : Unit → Option (Nat × Groups)) :
    Option (Nat × Groups) :=
  match a with
  | some r => some r
  | none => b ()

/-- The backtracking matcher.  `reM ic s fuel re i g k` tries to match
`re` at position `i` of `s` with current captures `g` and continuation
`k`; each call consumes one unit of fuel, which bounds the backtracking
work (the fuel supplied by `reTryAt` far exceeds what any pattern in the
analyzer can use, so the cutoff is never reached). -/
def reM (ic : Bool) (s : List Char) :
    Nat → Re → Nat → Groups → (Nat → Groups → Option (Nat × Groups)) →
    Option (Nat × Groups)
  | 0, _, _, _, _ => none
  | _ + 1, .eps, i, g, k => k i g
  | _ + 1, .cls cc, i, g, k =>
    match s.get? i with
    | some c => if ccMatch ic cc c then k (i + 1) g else none
    | none => none
  | fuel + 1, .seq a b, i, g, k =>
    reM ic s fuel a i g (fun j g2 => reM ic s fuel b j g2 k)
  | fuel + 1, .alt a b, i, g, k =>
    orTry (reM ic s fuel a i g k) (fun _ => reM ic s fuel b i g k)
  | fuel + 1, .grp n a, i, g, k =>
    reM ic s fuel a i g (fun j g2 => k j (setGrp g2 n i j))
  | _ + 1, .wordB, i, g, k => if atWordBoundary s i then k i g else none
  | _ + 1, .lineEnd, i, g, k => if atLineEnd s i then k i g else none
  | fuel + 1, .rep lo hi greedy a, i, g, k =>
    match lo with
    | n + 1 =>
      reM ic s fuel a i g (fun j g2 =>
        reM ic s fuel (.rep n (hi.map (· - 1)) greedy a) j g2 k)
    | 0 =>
      match hi with
      | some 0 => k i g
      | some (m + 1) =>
        if greedy then
          orTry (reM ic s fuel a i g (fun j g2 =>
              reM ic s fuel (.rep 0 (some m) greedy a) j g2 k))
            (fun _ => k i g)
        else
          orTry (k i g) (fun _ =>
            reM ic s fuel a i g (fun j g2 =>
              reM ic s fuel (.rep 0 (some m) greedy a) j g2 k))
      | none =>
        if greedy then
          orTry (reM ic s fuel a i g (fun j g2 =>
              if i < j then reM ic s fuel (.rep 0 none greedy a) j g2 k
              else none))
            (fun _ => k i g)
        else
          orTry (k i g) (fun _ =>
            reM ic s fuel a i g (fun j g2 =>
              if i < j then reM ic s fuel (.rep 0 none greedy a) j g2 k
              else none))

/-- A match: the span of group 0 and the captured group spans. -/
structure RMatch where
  mstart : Nat
  mstop : Nat
  groups : Groups
deriving DecidableEq, Repr

/-- Fuel budget for one anchored match attempt. -/
def reFuel (s : List Char) : Nat := (s.length + 2) * (s.length + 2) * 400

/-- Try to match `re` anchored at position `i`. -/
def reTryAt (ic : Bool) (re : Re) (s : List Char) (i : Nat) :
    Option (Nat × Groups) :=
  reM ic s (reFuel s) re i [] (fun j g => some (j, g))

/-- Scan positions `i, i+1, ...` (at most `rem` of them) for the
leftmost match, as `re.search` does. -/
def reSearchFrom (ic : Bool) (re : Re) (s : List Char) :
    Nat → Nat → Option RMatch
  | _, 0 => none
  | i, rem + 1 =>
    match reTryAt ic re s i with
    | some (j, g) => some ⟨i, j, g⟩
    | none => reSearchFrom ic re s (i + 1) rem

/-- Python `re.search(pattern, s, flags)`. -/
def reSearch (ic : Bool) (re : Re) (s : String) : Option RMatch :=
  reSearchFrom ic re s.data 0 (s.data.length + 1)

/-- The substring of `s` between positions `i` and `j`. -/
def subStr (s : String) (i j : Nat) : String := ⟨(s.data.drop i).take (j - i)⟩

/-- `match.group(0)`: the text of the whole match. -/
def group0Str (s : String) (m : RMatch) : String := subStr s m.mstart m.mstop

/-- `match.group(n)` for a numbered group, `none` when the group did not
participate in the match. -/
def groupStr (s : String) (m : RMatch) (n : Nat) : Option String :=
  (grpLookup m.groups n).map (fun p => subStr s p.1 p.2)

/-- One step of `re.sub`: emit text up to the next match, the
replacement, and recurse after the match (advancing by one character on
an empty match, as Python does). -/
def reSubGo (ic : Bool) (re : Re) (repl : List Char) (s : List Char) :
    Nat → Nat → List Char
  | 0, pos => s.drop pos
  | fuel + 1, pos =>
    match reSearchFrom ic re s pos (s.length + 1 - pos) with
    | none => s.drop pos
    | some m =>
      let pre := (s.drop pos).take (m.mstart - pos)
      if m.mstart < m.mstop then
        pre ++ repl ++ reSubGo ic re repl s fuel m.mstop
      else
        match s.get? m.mstart with
        | some c => pre ++ repl ++ (c :: reSubGo ic re repl s fuel (m.mstart + 1))
        | none => pre ++ repl

/-- Python `re.sub(pattern, repl, s, flags)` with a plain replacement
string. -/
def reSub (ic : Bool) (re : Re) (repl : String) (s : String) : String :=
  ⟨reSubGo ic re repl.data s.data (s.data.length + 1) 0⟩

/-! ### Pattern construction helpers -/

/-- A literal string pattern. -/
def rlit (s : String) : Re :=
  s.data.foldr (fun c acc => Re.seq (Re.cls (CC.one c)) acc) Re.eps

/-- Concatenation of a list of patterns. -/
def rcat (l : List Re) : Re := l.foldr Re.seq Re.eps

/-- Ordered alternation of a list of patterns. -/
def ralt : List Re → Re
  | [] => Re.eps
  | [r] => r
  | r :: rest => Re.alt r (ralt rest)

/-- `\W`. -/
def rW : Re := Re.cls CC.nonwordC

/-- `\w`. -/
def rw : Re := Re.cls CC.wordC

/-- `\d`. -/
def rd : Re := Re.cls CC.digitC

/-- a single literal character. -/
def rc (c : Char) : Re := Re.cls (CC.one c)

/-- `x?`. -/
def ropt (r : Re) : Re := Re.rep 0 (some 1) true r

/-- `x*` (greedy). -/
def rstar (r : Re) : Re := Re.rep 0 none true r

/-- `x+` (greedy). -/
def rplus (r : Re) : Re := Re.rep 1 none true r

/-- `x{n,m}` (greedy). -/
def rrep (lo hi : Nat) (r : Re) : Re := Re.rep lo (some hi) true r

/-- `\s*` (greedy). -/
def rsp : Re := rstar (Re.cls CC.spaceC)

/-- `\W...\W`-delimited literal token, the shape of the language patterns. -/
def rWword (s : String) : Re := rcat [rW, rlit s, rW]

/-! ## Pattern library (`FilenameAnalyzer` class attributes)

Each definition mirrors one pattern of the source, in the same order;
the original regex is quoted in the comment. -/

/-- `RESOLUTION_PATTERNS`:
`(2160p|4KLight|4K\WSDR|4K|SDR)`, `(1080p|FHD|FullHD|HDLight|mHD|miniHD)`,
`(720p|HD)`, `(480p|SD)`, `(360p|VGA|VCD|PAL|NTSC)`. -/
def RESOLUTION_PATTERNS : List Re :=
  [ Re.grp 1 (ralt [rlit "2160p", rlit "4KLight",
      rcat [rlit "4K", rW, rlit "SDR"], rlit "4K", rlit "SDR"]),
    Re.grp 1 (ralt [rlit "1080p", rlit "FHD", rlit "FullHD", rlit "HDLight",
      rlit "mHD", rlit "miniHD"]),
    Re.grp 1 (ralt [rlit "720p", rlit "HD"]),
    Re.grp 1 (ralt [rlit "480p", rlit "SD"]),
    Re.grp 1 (ralt [rlit "360p", rlit "VGA", rlit "VCD", rlit "PAL", rlit "NTSC"]) ]

/-- `HDR_PATTERNS`:
`(10bit|12bit|HDR10Plus|HDR10\+|HDR10|HDR2100|HDR|Dolby\W?Vision|DV\+|DV|HLG)`. -/
def HDR_PATTERNS : List Re :=
  [ Re.grp 1 (ralt [rlit "10bit", rlit "12bit", rlit "HDR10Plus",
      rcat [rlit "HDR10", rc '+'], rlit "HDR10", rlit "HDR2100", rlit "HDR",
      rcat [rlit "Dolby", ropt rW, rlit "Vision"],
      rcat [rlit "DV", rc '+'], rlit "DV", rlit "HLG"]) ]

/-- `VIDEO_CODEC_PATTERNS`: `(x264|x265|H264|H265|HEVC|AVC|VC-1|VP9|AV1)`. -/
def VIDEO_CODEC_PATTERNS : List Re :=
  [ Re.grp 1 (ralt [rlit "x264", rlit "x265", rlit "H264", rlit "H265",
      rlit "HEVC", rlit "AVC", rlit "VC-1", rlit "VP9", rlit "AV1"]) ]

/-- `\W?\d\.\d`, the channel-count suffix used by the audio patterns. -/
def rchan : Re := rcat [ropt rW, rd, rc '.', rd]

/-- `AUDIO_CODEC_PATTERNS`:
`(AAC\W?\d\.\d|AAC|AC3\W?\d\.\d|AC3|DTS\W?\d\.\d|DTS\W?\d\.\d|DTS-HDMA\W?\d\.\d|DTS-HD\W?\d\.\d|DTS|DTS-HDMA|DTS-HD|FLAC|MP3|Opus|DDP\W?\d\.\d|DDP|DPP\W?\d\.\d|DPP|E-AC3|DD+|Atmos\W?\d\.\d|Atmos|TrueHD|8CH|6CH)`. -/
def AUDIO_CODEC_PATTERNS : List Re :=
  [ Re.grp 1 (ralt
      [ rcat [rlit "AAC", rchan], rlit "AAC",
        rcat [rlit "AC3", rchan], rlit "AC3",
        rcat [rlit "DTS", rchan], rcat [rlit "DTS", rchan],
        rcat [rlit "DTS-HDMA", rchan], rcat [rlit "DTS-HD", rchan],
        rlit "DTS", rlit "DTS-HDMA", rlit "DTS-HD",
        rlit "FLAC", rlit "MP3", rlit "Opus",
        rcat [rlit "DDP", rchan], rlit "DDP",
        rcat [rlit "DPP", rchan], rlit "DPP",
        rlit "E-AC3", rcat [rc 'D', rplus (rc 'D')],
        rcat [rlit "Atmos", rchan], rlit "Atmos",
        rlit "TrueHD", rlit "8CH", rlit "6CH" ]) ]

/-- `FILE_SOURCE_PATTERNS`:
`(webdl|web-dl|webrip|dvdrip|bdrip|bd|dvd5|dvd9|bluray5|bluray9|bluray|web.ad|web|dvd|XviD|brrip)`. -/
def FILE_SOURCE_PATTERNS : List Re :=
  [ Re.grp 1 (ralt
      [ rlit "webdl", rlit "web-dl", rlit "webrip", rlit "dvdrip", rlit "bdrip",
        rlit "bd", rlit "dvd5", rlit "dvd9", rlit "bluray5", rlit "bluray9",
        rlit "bluray", rcat [rlit "web", Re.cls CC.anyNotNl, rlit "ad"],
        rlit "web", rlit "dvd", rlit "XviD", rlit "brrip" ]) ]

/-- `TEAM_PATTERNS`, eight patterns in source order:
`\W(\w{2,8})\W\(\w+\W*\)\.\w{3}$`, `\W(\w{2,8})\W\(\w+\W*\)$`,
`\W(\w{2,8})\.\w{3}$`, `\W(\w{2,8})$`, `\((\w{2,8})\)\.\w{3}$`,
`\[(\w{2,8})\]$`, `(Tsundere-Raws) \(CR\)`, `(Tsundere-Raws)`. -/
def TEAM_PATTERNS : List Re :=
  [ rcat [rW, Re.grp 1 (rrep 2 8 rw), rW, rc '(', rplus rw, rstar rW,
      rc ')', rc '.', rrep 3 3 rw, Re.lineEnd],
    rcat [rW, Re.grp 1 (rrep 2 8 rw), rW, rc '(', rplus rw, rstar rW,
      rc ')', Re.lineEnd],
    rcat [rW, Re.grp 1 (rrep 2 8 rw), rc '.', rrep 3 3 rw, Re.lineEnd],
    rcat [rW, Re.grp 1 (rrep 2 8 rw), Re.lineEnd],
    rcat [rc '(', Re.grp 1 (rrep 2 8 rw), rc ')', rc '.', rrep 3 3 rw,
      Re.lineEnd],
    rcat [rc '[', Re.grp 1 (rrep 2 8 rw), rc ']', Re.lineEnd],
    rcat [Re.grp 1 (rlit "Tsundere-Raws"), rlit " ", rc '(', rlit "CR", rc ')'],
    Re.grp 1 (rlit "Tsundere-Raws") ]

/-- `PLATFORM_PATTERNS`:
`\W(HMAX|Netflix|NF|Amazon|Disney\+|Apple TV\+|Apple TV|YouTube|Orange|Vimeo|Crunchyroll|Funimation|HBO Max|Disney Plus|Hulu Plus|HBO GO|HBO|Hulu|Disney)\W`. -/
def PLATFORM_PATTERNS : List Re :=
  [ rcat [rW, Re.grp 1 (ralt
      [ rlit "HMAX", rlit "Netflix", rlit "NF", rlit "Amazon",
        rcat [rlit "Disney", rc '+'], rcat [rlit "Apple TV", rc '+'],
        rlit "Apple TV", rlit "YouTube", rlit "Orange", rlit "Vimeo",
        rlit "Crunchyroll", rlit "Funimation", rlit "HBO Max",
        rlit "Disney Plus", rlit "Hulu Plus", rlit "HBO GO", rlit "HBO",
        rlit "Hulu", rlit "Disney" ]), rW] ]

/-- `SPECIAL_VERSION_PATTERNS`:
`\W(Extended|Extended Version|Extended Edition|Directors Cut|Final|Proper|Internal|Fansub|Hybrid|DC|Director's Cut|Custom|Unrated|Unrated Version|\w{3,5}logie|Complet|Repack|Reapck|Remux|Integrale|Collection|Saga)`. -/
def SPECIAL_VERSION_PATTERNS : List Re :=
  [ rcat [rW, Re.grp 1 (ralt
      [ rlit "Extended", rlit "Extended Version", rlit "Extended Edition",
        rlit "Directors Cut", rlit "Final", rlit "Proper", rlit "Internal",
        rlit "Fansub", rlit "Hybrid", rlit "DC", rlit "Director\x27s Cut",
        rlit "Custom", rlit "Unrated", rlit "Unrated Version",
        rcat [rrep 3 5 rw, rlit "logie"], rlit "Complet", rlit "Repack",
        rlit "Reapck", rlit "Remux", rlit "Integrale", rlit "Collection",
        rlit "Saga" ])] ]

/-- `TRASH_PATTERNS`: `\WREADNFO\W`, `\WSUBFORCED\W`. -/
def TRASH_PATTERNS : List Re :=
  [ rcat [rW, rlit "READNFO", rW], rcat [rW, rlit "SUBFORCED", rW] ]

/-- `LANGUAGE_PATTERNS`: the per-language pattern lists, in the source's
insertion order; every entry is a `\W`-delimited token. -/
def LANGUAGE_PATTERNS : List (String × List Re) :=
  [ ("French", [rWword "truefrench", rWword "french", rWword "vff",
      rWword "vfi", rWword "vfq", rWword "vf2", rWword "vf", rWword "vof",
      rWword "vo", rWword "vostfr", rWword "fr"]),
    ("English", [rWword "en", rWword "eng"]),
    ("Spanish", [rWword "es"]),
    ("German", [rWword "de", rWword "german", rWword "deu", rWword "ger"]),
    ("Italian", [rWword "it", rWword "ita"]),
    ("Portuguese", [rWword "pt"]),
    ("Russian", [rWword "ru"]),
    ("Japanese", [rWword "ja"]),
    ("Chinese", [rWword "zh"]),
    ("Korean", [rWword "ko"]) ]

/-- Default of the `MULTI_LANGUAGE` environment setting
(`Config.app.multi_language`), baked into the legacy table at import
time; the entry carrying it is skipped by every consumer. -/
def multiLanguageLabel : String := "Multi"

/-- `r'\Wvo\w{2-4}'`: `{2-4}` is not a valid quantifier, so Python
treats it as the literal text `{2-4}`. -/
def reVoOrig : Re := rcat [rW, rlit "vo", rw, rlit "\x7b2-4\x7d"]

/-- The `r'\Wmulti\W'` key of the legacy table, compared against to skip
the multi entry. -/
def reLegacyMulti : Re := rWword "multi"

/-- `LANGUAGES`, the legacy pattern-to-language table in source order. -/
def LANGUAGES : List (Re × String) :=
  [ (rWword "ar", "Arabic"), (rWword "hi", "Hindi"), (rWword "no", "Norwegian"),
    (rWword "nor", "Norwegian"), (rWword "norwegian", "Norwegian"),
    (reVoOrig, "Original"), (reLegacyMulti, multiLanguageLabel) ]

/-- `SUBTITLE_LANGUAGES`, token-to-language lookup in source order. -/
def SUBTITLE_LANGUAGES : List (String × String) :=
  [ ("vostfr", "French"), ("subfr", "French"), ("subit", "Italian"),
    ("subes", "Spanish"), ("subpt", "Portuguese"), ("subru", "Russian"),
    ("subja", "Japanese"), ("subzh", "Chinese"), ("subko", "Korean"),
    ("subar", "Arabic"), ("subhi", "Hindi") ]

/-- The multi-language marker `\W(multi|mult[i|í])\W` checked by
`_extract_languages`. -/
def reMultiMarker : Re :=
  rcat [rW, Re.grp 1 (Re.alt (rlit "multi")
    (rcat [rlit "mult", Re.cls (CC.setC ['i', '|', 'í'])])), rW]

/-- The year pattern `\b(19|20)\d{2}\b`. -/
def reYear : Re :=
  rcat [Re.wordB, Re.grp 1 (Re.alt (rlit "19") (rlit "20")), rrep 2 2 rd,
    Re.wordB]

/-- `_extract_season_episode`'s episode patterns, in source order:
`[Ss](\d{1,2})[Ee](\d{1,2})` (listed twice), `(\d{1,2})x(\d{1,2})`,
`S(\d{1,2})-(\d{1,2})`. -/
def episodePatterns : List Re :=
  [ rcat [Re.cls (CC.setC ['S', 's']), Re.grp 1 (rrep 1 2 rd),
      Re.cls (CC.setC ['E', 'e']), Re.grp 2 (rrep 1 2 rd)],
    rcat [Re.cls (CC.setC ['S', 's']), Re.grp 1 (rrep 1 2 rd),
      Re.cls (CC.setC ['E', 'e']), Re.grp 2 (rrep 1 2 rd)],
    rcat [Re.grp 1 (rrep 1 2 rd), rc 'x', Re.grp 2 (rrep 1 2 rd)],
    rcat [rc 'S', Re.grp 1 (rrep 1 2 rd), rc '-', Re.grp 2 (rrep 1 2 rd)] ]

/-- The episode-range pattern `\b(\d{1,3})-(\d{1,3})\b`. -/
def episodeRangeRe : Re :=
  rcat [Re.wordB, Re.grp 1 (rrep 1 3 rd), rc '-', Re.grp 2 (rrep 1 3 rd),
    Re.wordB]

/-- `_extract_season_episode`'s full-season patterns, in source order:
`[Ss]aison\s*(\d{1,2})`, `[Ss]eason\s*(\d{1,2})`, `[Ss](\d{1,2})`. -/
def fullSeasonPatterns : List Re :=
  [ rcat [Re.cls (CC.setC ['S', 's']), rlit "aison", rsp,
      Re.grp 1 (rrep 1 2 rd)],
    rcat [Re.cls (CC.setC ['S', 's']), rlit "eason", rsp,
      Re.grp 1 (rrep 1 2 rd)],
    rcat [Re.cls (CC.setC ['S', 's']), Re.grp 1 (rrep 1 2 rd)] ]

/-- `\(\d{4}\)`, the year-brackets pattern of `_clean_title`. -/
def reParenYear : Re := rcat [rc '(', rrep 4 4 rd, rc ')']

/-- `\[.*?\]`. -/
def reBracketed : Re :=
  rcat [rc '[', Re.rep 0 none false (Re.cls CC.anyNotNl), rc ']']

/-- `\(.*?\)`. -/
def reParened : Re :=
  rcat [rc '(', Re.rep 0 none false (Re.cls CC.anyNotNl), rc ')']

/-- `\{.*?\}`. -/
def reBraced : Re :=
  rcat [rc '\x7b', Re.rep 0 none false (Re.cls CC.anyNotNl), rc '\x7d']

/-- `_clean_title`'s `common_patterns`, in source order. -/
def commonPatterns : List Re :=
  [ rcat [Re.wordB, Re.grp 1 (Re.alt (rlit "multi")
      (rcat [rlit "mult", Re.cls (CC.setC ['i', '|', 'í'])])), Re.wordB],
    rcat [Re.wordB, Re.grp 1 (ralt [rlit "1080p", rlit "720p", rlit "2160p",
      rlit "4klight", rlit "4k", rlit "480p", rlit "uhd", rlit "hdlight",
      rlit "fhd", rlit "mhd", rlit "hd"]), Re.wordB],
    rcat [Re.wordB, Re.grp 1 (ralt [rlit "web", rlit "webrip", rlit "web-dl",
      rlit "bdrip", rlit "bluray"]), Re.wordB],
    rcat [Re.wordB, Re.grp 1 (ralt [rlit "x264", rlit "x265", rlit "h264",
      rlit "h265", rlit "hevc"]), Re.wordB],
    rcat [Re.wordB, Re.grp 1 (ralt [rlit "aac", rlit "ac3", rlit "ddp",
      rlit "dts", rlit "mp3", rlit "flac"]), Re.wordB],
    rcat [Re.wordB, Re.grp 1 (ralt [rlit "5.1", rlit "7.1", rlit "2.0",
      rlit "atmos", rlit "truehd"]), Re.wordB],
    rcat [Re.wordB, Re.grp 1 (ralt [rlit "hdr10", rlit "hdr", rlit "dv",
      rcat [rlit "dolby", rsp, rlit "vision"]]), Re.wordB],
    rcat [Re.wordB, Re.grp 1 (rlit "10bit"), Re.wordB] ]

/-- `_clean_title`'s `tvshow_patterns`, in source order. -/
def tvshowPatterns : List Re :=
  [ rcat [Re.wordB, rc 'S', rrep 1 2 rd, rc 'E', rrep 1 2 rd, Re.wordB],
    rcat [Re.wordB, rc 'S', rrep 1 2 rd, Re.wordB],
    rcat [Re.wordB, rc 'E', rrep 1 2 rd, Re.wordB],
    rcat [Re.wordB, rc 'E', rrep 1 2 rd, rc '-', rrep 1 2 rd, Re.wordB],
    rcat [Re.wordB, rc 'S', rrep 1 3 rd, rc '-', rrep 1 3 rd, Re.wordB],
    rcat [Re.wordB, rrep 1 3 rd, rc '-', rrep 1 3 rd, Re.wordB],
    rcat [Re.cls (CC.setC ['S', 's']), rlit "aison", rsp, rrep 1 2 rd] ]

/-- `[._\-\+]`, the separator class collapsed to spaces. -/
def reSeparators : Re := Re.cls (CC.setC ['.', '_', '-', '+'])

/-- `\s+`. -/
def reWsPlus : Re := rplus (Re.cls CC.spaceC)

/-! ## MediaInfo and the filename analyzer -/

/-- The `MediaInfo` dataclass of `models.py` (datetime-free fields). -/
structure MediaInfo where
  title : String
  year : Option Nat := none
  type : String := "movie"
  source : Option String := none
  version : Option String := none
  team : Option String := none
  resolution : Option String := none
  video_codec : Option String := none
  audio_codec : Option String := none
  languages : List String := []
  subtitles : List String := []
  tmdb_id : Option Nat := none
  imdb_id : Option String := none
  season : Option Nat := none
  episode : Option Nat := none
  hdr : Option String := none
  platform : Option String := none
  is_multi_language : Bool := false
  full_season : Bool := false
deriving DecidableEq, Repr

/-- `match.group(1).upper().rstrip()`, the normalization applied to every
extracted technical token. -/
def normUp (v : String) : String := pyRstrip (pyUpper v)

/-- The first-match-wins attribute loop of `analyze_filename`: iterate
the pattern list in order, and on the first pattern whose search
succeeds return the normalized capture of group 1. -/
def extractAttr : List Re → String → Option String
  | [], _ => none
  | p :: rest, s =>
    match reSearch true p s with
    | some m => (groupStr s m 1).map normUp
    | none => extractAttr rest s

/-- `FilenameAnalyzer._determine_type`. -/
def determineType (filename category : String) : String :=
  let fl := pyLower filename
  let cl := pyLower category
  if pyContains cl "tv" || pyContains cl "series" then "tvshow"
  else if pyContains cl "anime" || pyContains cl "manga" then "anime"
  else if pyContains cl "movie" || pyContains cl "film" then "movie"
  else if pyContains fl "s0" || pyContains fl "season" || pyContains fl "episode"
    then "tvshow"
  else if pyContains fl "anime" || pyContains fl "manga" then "anime"
  else "movie"

/-- First pattern (searched without flags) yielding groups 1 and 2 as
integers. -/
def findFirst2 : List Re → String → Option (Nat × Nat)
  | [], _ => none
  | p :: rest, s =>
    match reSearch false p s with
    | some m =>
      some (pyStrToNat ((groupStr s m 1).getD ""),
        pyStrToNat ((groupStr s m 2).getD ""))
    | none => findFirst2 rest s

/-- First pattern (searched without flags) yielding group 1 as an
integer. -/
def findFirst1 : List Re → String → Option Nat
  | [], _ => none
  | p :: rest, s =>
    match reSearch false p s with
    | some m => some (pyStrToNat ((groupStr s m 1).getD ""))
    | none => findFirst1 rest s

/-- `FilenameAnalyzer._extract_season_episode`. -/
def extractSeasonEpisode (filename : String) : Option Nat × Option Nat :=
  match findFirst2 episodePatterns filename with
  | some (a, b) => (some a, some b)
  | none =>
    match reSearch false episodeRangeRe filename with
    | some m => (some 1, some (pyStrToNat ((groupStr filename m 2).getD "")))
    | none =>
      match findFirst1 fullSeasonPatterns filename with
      | some a => (some a, none)
      | none => (none, none)

/-- `FilenameAnalyzer._extract_languages`: accumulate every language one
of whose patterns matches (no first-match short-circuit across
languages), then the legacy table minus its multi entry; the multi flag
comes solely from the `\W(multi|mult[i|í])\W` search. -/
def extractLanguages (filename : String) : List String × Bool :=
  let langs1 := LANGUAGE_PATTERNS.foldl (fun acc entry =>
    entry.2.foldl (fun acc2 pat =>
      if (reSearch true pat filename).isSome then
        if acc2.contains entry.1 then acc2 else acc2 ++ [entry.1]
      else acc2) acc) []
  let langs2 := LANGUAGES.foldl (fun acc entry =>
    if entry.1 = reLegacyMulti then acc
    else if (reSearch true entry.1 filename).isSome then
      if acc.contains entry.2 then acc else acc ++ [entry.2]
    else acc) langs1
  (langs2, (reSearch true reMultiMarker filename).isSome)

/-- `FilenameAnalyzer._extract_subtitles`. -/
def extractSubtitles (filename : String) : List String :=
  SUBTITLE_LANGUAGES.foldl (fun acc entry =>
    if pyContains filename (pyLower entry.1) then acc ++ [entry.2] else acc) []

/-- The `title = title[:match.start()]` truncation loop of
`_clean_title`, run over a pattern list with `re.IGNORECASE`. -/
def truncateAtFirst (pats : List Re) (title : String) : String :=
  pats.foldl (fun t pat =>
    match reSearch true pat t with
    | some m => ⟨t.data.take m.mstart⟩
    | none => t) title

/-- `FilenameAnalyzer._clean_title`, taking the fields of the partially
filled `MediaInfo` it reads (`year`, `type`, `languages`). -/
def cleanTitle (filename : String) (year : Option Nat) (typ : String)
    (languages : List String) : String :=
  let title0 := pyStem filename
  let title1 := if title0.length + 4 < filename.length then filename else title0
  let title2 := match year with
    | some y => if y ≠ 0 then reSub false reParenYear (toString y) title1 else title1
    | none => title1
  let title3 := [reBracketed, reParened, reBraced].foldl
    (fun t p => reSub false p "" t) title2
  let title4 := match year with
    | some y =>
      if y ≠ 0 then
        match pySplitOn title3 (toString y) with
        | x :: _ => x
        | [] => title3
      else title3
    | none => title3
  let title5 := truncateAtFirst commonPatterns title4
  let detected := languages.map pyLower
  let langPats := LANGUAGE_PATTERNS.foldl (fun acc e =>
    if detected.contains (pyLower e.1) then acc ++ e.2 else acc) []
  let legacyPats := LANGUAGES.foldl (fun acc e =>
    if e.1 = reLegacyMulti then acc
    else if detected.contains (pyLower e.2) then acc ++ [e.1] else acc) []
  let allPats := AUDIO_CODEC_PATTERNS ++ FILE_SOURCE_PATTERNS ++ HDR_PATTERNS ++
    PLATFORM_PATTERNS ++ SPECIAL_VERSION_PATTERNS ++ TEAM_PATTERNS ++
    TRASH_PATTERNS ++ langPats ++ legacyPats
  let title6 := truncateAtFirst allPats title5
  let title7 := if typ = "tvshow" ∨ typ = "anime" then
      tvshowPatterns.foldl (fun t p => reSub true p "" t) title6
    else title6
  let title8 := reSub false reSeparators " " title7
  let title9 := reSub false reWsPlus " " title8
  pyTitleCase (pyStrip title9)

/-- The `if not media_info.version: media_info.version = "Original"`
default: a missing or empty extracted version becomes `"Original"`. -/
def versionOf : Option String → Option String
  | some v => if v = "" then some "Original" else some v
  | none => some "Original"

/-- `FilenameAnalyzer.analyze_filename` without a file path: lower-case
the filename, then run every extraction step of the source in order.
The truthiness tests of the source (`if season:`, `if episode:`,
`if not media_info.version:`) are modeled literally, treating `0` and
the empty string as false. -/
def analyzeFilename (filename category : String) : MediaInfo :=
  let fn := pyLower filename
  let typ := determineType fn category
  let resolution := extractAttr RESOLUTION_PATTERNS fn
  let video_codec := extractAttr VIDEO_CODEC_PATTERNS fn
  let hdr := extractAttr HDR_PATTERNS fn
  let platform := extractAttr PLATFORM_PATTERNS fn
  let version := versionOf (extractAttr SPECIAL_VERSION_PATTERNS fn)
  let audio_codec := extractAttr AUDIO_CODEC_PATTERNS fn
  let source := extractAttr FILE_SOURCE_PATTERNS fn
  let year := (reSearch false reYear fn).map (fun m => pyStrToNat (group0Str fn m))
  let se := if typ = "tvshow" ∨ typ = "anime" then extractSeasonEpisode fn
    else (none, none)
  let sef : Option Nat × Option Nat × Bool := match se with
    | (some s, e) =>
      if s ≠ 0 then
        match e with
        | some ep => if ep ≠ 0 then (some s, some ep, false) else (some s, none, true)
        | none => (some s, none, true)
      else (none, none, false)
    | (none, _) => (none, none, false)
  let team := extractAttr TEAM_PATTERNS fn
  let langsMulti := extractLanguages fn
  let subtitles := extractSubtitles fn
  let title := cleanTitle fn year typ langsMulti.1
  { title := title, year := year, type := typ, source := source,
    version := version, team := team, resolution := resolution,
    video_codec := video_codec, audio_codec := audio_codec,
    languages := langsMulti.1, subtitles := subtitles,
    season := sef.1, episode := sef.2.1, hdr := hdr, platform := platform,
    is_multi_language := langsMulti.2, full_season := sef.2.2 }

/-! ## File content analyzer (`file_analyzer.py`)

Only the parts the filename analyzer's merge step consumes are embedded:
codec-name cleaning, the probed-resolution format, and the override and
union merge of `_enhance_with_file_analysis`. -/

/-- The `codec_mapping` table of `FileAnalyzer._clean_codec_name`. -/
def codecMapping : List (String × String) :=
  [ ("h264", "H264"), ("hevc", "x265"), ("h265", "x265"), ("avc", "H264"),
    ("aac", "AAC"), ("ac3", "AC3"), ("eac3", "DDP"), ("dts", "DTS"),
    ("truehd", "TrueHD"), ("flac", "FLAC"), ("opus", "Opus"),
    ("vorbis", "Vorbis"), ("mp3", "MP3") ]

/-- `FileAnalyzer._clean_codec_name`: mapping hit wins, otherwise the
upper-cased raw name. -/
def cleanCodecName (codec : String) : String :=
  match codecMapping.find? (fun e => e.1 = pyLower codec) with
  | some e => e.2
  | none => pyUpper codec

/-- The probed resolution string `f"{height}p"` built by
`FileAnalyzer._extract_streams_info` from the video stream height. -/
def resolutionOfHeight (h : Nat) : String := toString h ++ "p"

/-- The fields of the `file_info` dict consumed by the merge step. -/
structure FileProbeInfo where
  video_codec : Option String := none
  audio_codec : Option String := none
  resolution : Option String := none
  languages : List String := []
  subtitles : List String := []
deriving DecidableEq, Repr

/-- Python truthiness of an optional string (`None` and `""` are false). -/
def truthyStr : Option String → Bool
  | some v => v ≠ ""
  | none => false

/-- List union keeping first-list order then unseen second-list elements;
models the Python `set(...).union(set(...))` whose iteration order the
claims never observe. -/
def listUnion (a b : List String) : List String :=
  a ++ b.filter (fun x => !a.contains x)

/-- `FilenameAnalyzer._enhance_with_file_analysis`, given an available
probe result: probed technical values override the filename-derived
ones when truthy; languages and subtitles are unioned. -/
def enhanceWithFileAnalysis (m : MediaInfo) (fi : FileProbeInfo) : MediaInfo :=
  let m1 := if truthyStr fi.video_codec then
      { m with video_codec := fi.video_codec } else m
  let m2 := if truthyStr fi.audio_codec then
      { m1 with audio_codec := fi.audio_codec } else m1
  let m3 := if truthyStr fi.resolution then
      { m2 with resolution := fi.resolution } else m2
  { m3 with languages := listUnion m3.languages fi.languages,
            subtitles := listUnion m3.subtitles fi.subtitles }

/-! ## TMDB matcher (`tmdb_matcher.py`)

The HTTP search and details calls and the `difflib` similarity are
external; they enter as parameters.  A raised exception inside a search
or details call is an `Except.error`.  Clock readings are an integer
`now` parameter. -/

/-- A cache entry `{'data': ..., 'timestamp': ...}`. -/
structure CacheEntry (α : Type) where
  data : α
  timestamp : Int
deriving DecidableEq, Repr

/-- The in-memory cache dict, keyed by the cache-key string. -/
abbrev Cache (α : Type) := List (String × CacheEntry α)

/-- Dict lookup. -/
def lookupC (k : String) (c : Cache α) : Option (CacheEntry α) :=
  (c.find? (fun e => e.1 == k)).map (fun e => e.2)

/-- Dict `del`. -/
def eraseC (k : String) (c : Cache α) : Cache α :=
  c.filter (fun e => !(e.1 == k))

/-- Dict assignment: replace the entry in place when the key is present
(keys are unique in a dict), or append a new key. -/
def insertC (k : String) (e : CacheEntry α) : Cache α → Cache α
  | [] => [(k, e)]
  | p :: rest => if p.1 = k then (k, e) :: rest else p :: insertC k e rest

/-- `TMDBMatcher._get_from_cache`: a fresh entry is returned as is, an
expired one is deleted and `None` returned; the possibly modified cache
is the second component. -/
def getFromCache (expiry now : Int) (k : String) (c : Cache α) :
    Option α × Cache α :=
  match lookupC k c with
  | some e =>
    if now - e.timestamp ≤ expiry then (some e.data, c)
    else (none, eraseC k c)
  | none => (none, c)

/-- `TMDBMatcher._set_cache`. -/
def setCache (now : Int) (k : String) (d : α) (c : Cache α) : Cache α :=
  insertC k ⟨d, now⟩ c

/-- String shown for an optional integer in an f-string (`None` for
`none`). -/
def pyShowOptNat : Option Nat → String
  | some n => toString n
  | none => "None"

/-- The key data `f"{title}_{year}_{type}_{season}_{episode}"` of
`_get_cache_key`; the source keys the dict by this string's MD5 hex
digest, a renaming of keys that no cache property depends on, so the
model keys by the string itself. -/
def cacheKeyData (m : MediaInfo) : String :=
  m.title ++ "_" ++ pyShowOptNat m.year ++ "_" ++ m.type ++ "_" ++
    pyShowOptNat m.season ++ "_" ++ pyShowOptNat m.episode

/-- The candidate loop of `_match_movie`: for each search result, fetch
the movie details and build the match record (`build`, which may raise —
a raise aborts the loop and is caught by the surrounding `try`), add the
candidate's score, keep the strictly best record, and exit early at
score ≥ 100.  The score of a candidate is a fixed function of the
candidate since the query title and year are fixed for the whole
loop. -/
def selectLoopE (build : γ → Except ε μ) (score : γ → ℚ) :
    List γ → Option μ → ℚ → Except ε (Option μ × ℚ)
  | [], best, bestScore => .ok (best, bestScore)
  | cand :: rest, best, bestScore =>
    match build cand with
    | .error e => .error e
    | .ok cur =>
      let s := score cand
      let best2 := if bestScore < s then some cur else best
      let bs2 := if bestScore < s then s else bestScore
      if 100 ≤ s then .ok (best2, bs2)
      else selectLoopE build score rest best2 bs2

/-- The empty-results fallback of `_match_movie` / `_match_tvshow`: when
the first search (with year) yields no results, retry without the year
constraint. -/
def searchResultsResolve (first retryNoYear : Except ε (List γ)) :
    Except ε (List γ) :=
  match first with
  | .error e => .error e
  | .ok l => if l.isEmpty then retryNoYear else .ok l

/-- `TMDBMatcher._match_movie`: run the search, the fallback search and
the candidate loop inside the `try` block; any raised error is caught
and `(None, 0)` returned. -/
def matchMovieRun (first retryNoYear : Except ε (List γ))
    (build : γ → Except ε μ) (score : γ → ℚ) : Option μ × ℚ :=
  match searchResultsResolve first retryNoYear >>= fun l =>
      selectLoopE build score l none 0 with
  | .ok r => r
  | .error _ => (none, 0)

/-- Python truthiness of an optional integer (`None` and `0` are
false). -/
def truthyN : Option Nat → Bool
  | some n => n != 0
  | none => false

/-- The season/episode sub-lookup of `_match_tvshow` for one candidate:
`episode_data` and `season_data` start as `None`; under the guard
`if season:` an inner `try` fetches the episode details (when the
episode number is truthy) and then the season details; an exception
anywhere in that inner block is caught and logged, keeping whatever was
assigned before the raise, and the candidate loop continues. -/
def tvSubDetails {ε δe δs : Type} (seasonN episodeN : Option Nat)
    (epDet : Except ε δe) (seDet : Except ε δs) : Option δe × Option δs :=
  if truthyN seasonN then
    if truthyN episodeN then
      match epDet with
      | .error _ => (none, none)
      | .ok ed =>
        if truthyN seasonN then
          match seDet with
          | .error _ => (some ed, none)
          | .ok sd => (some ed, some sd)
        else (some ed, none)
    else
      if truthyN seasonN then
        match seDet with
        | .error _ => (none, none)
        | .ok sd => (none, some sd)
      else (none, none)
  else (none, none)

/-- The candidate loop of `_match_tvshow`: for each search result, fetch
the show details (`tvDetails`, whose raise aborts the loop and is caught
by the surrounding `try`), run the season/episode sub-lookup whose
exceptions are absorbed per candidate by its own inner `try/except`,
build the match record from the candidate, the details and the partial
sub-data, then score, keep the strictly best record and exit early at
score ≥ 100 — the same selection skeleton as the movie loop. -/
def selectLoopTv {ε γ δ δe δs μ : Type} (tvDetails : γ → Except ε δ)
    (epDet : γ → Except ε δe) (seDet : γ → Except ε δs)
    (seasonN episodeN : Option Nat)
    (build : γ → δ → Option δe × Option δs → μ) (score : γ → ℚ) :
    List γ → Option μ → ℚ → Except ε (Option μ × ℚ)
  | [], best, bestScore => .ok (best, bestScore)
  | cand :: rest, best, bestScore =>
    match tvDetails cand with
    | .error e => .error e
    | .ok d =>
      let sub := tvSubDetails seasonN episodeN (epDet cand) (seDet cand)
      let cur := build cand d sub
      let s := score cand
      let best2 := if bestScore < s then some cur else best
      let bs2 := if bestScore < s then s else bestScore
      if 100 ≤ s then .ok (best2, bs2)
      else selectLoopTv tvDetails epDet seDet seasonN episodeN build score
        rest best2 bs2

/-- `TMDBMatcher._match_tvshow`: run the search, the fallback search and
the TV candidate loop inside the outer `try` block; any error that
reaches the outer `try` — from the searches or a `tv.details` call — is
caught and `(None, 0)` returned, while season/episode-details errors
never reach it (they are absorbed inside the loop). -/
def matchTvshowRun {ε γ δ δe δs μ : Type}
    (first retryNoYear : Except ε (List γ)) (tvDetails : γ → Except ε δ)
    (epDet : γ → Except ε δe) (seDet : γ → Except ε δs)
    (seasonN episodeN : Option Nat)
    (build : γ → δ → Option δe × Option δs → μ) (score : γ → ℚ) :
    Option μ × ℚ :=
  match searchResultsResolve first retryNoYear >>= fun l =>
      selectLoopTv tvDetails epDet seDet seasonN episodeN build score l
        none 0 with
  | .ok r => r
  | .error _ => (none, 0)

/-- Did an `Except` computation finish without raising? -/
def isOkE {ε α : Type} : Except ε α → Bool
  | .ok _ => true
  | .error _ => false

/-- The candidate loop without external failure: `build` is the identity
and the error type is empty.  This is the scoring loop studied for
order-independence; `_match_movie` and `_match_tvshow` share this
strict-`>` / early-exit selection over their candidates' scores. -/
def selectBest (score : γ → ℚ) (l : List γ) : Option γ × ℚ :=
  match selectLoopE (fun c => (Except.ok c : Except Empty γ)) score l none 0 with
  | .ok r => r
  | .error e => e.elim

/-- Outcome of the type dispatch inside the retry loop's body. -/
inductive SearchStep (ρ : Type) where
  | unknownType : SearchStep ρ
  | result : Option ρ → ℚ → SearchStep ρ

/-- How one call of `_match_with_retry` left its loop. -/
inductive RetryExit (ρ : Type) where
  | found : ρ → ℚ → RetryExit ρ
  | unknownType : RetryExit ρ
  | exhausted : Option ρ → ℚ → RetryExit ρ

/-- `int((len(original_words) * 0.6) + 0.5)`: the 60% word-count floor,
a round-half-up.  The float expression is exact at every realistic word
count (ties `0.6·n + 0.5 = k` would need `6n + 5 ≡ 0 (mod 10)`, which is
impossible). -/
def minWordCount (n : Nat) : Nat := (6 * n + 5) / 10

/-- The `while` loop of `_match_with_retry` over the shrinking word
list, also recording the word list of every search performed (second
component).  The fuel argument only bounds the recursion; `matchRetryLoop`
supplies one unit more than the word count, which the loop can never
consume. -/
def retryGo (step : String → SearchStep ρ) (originalTitle : String)
    (minW : Nat) :
    Nat → List String → Option ρ → ℚ → RetryExit ρ × List (List String)
  | 0, _, best, bs => (.exhausted best bs, [])
  | fuel + 1, currentWords, best, bs =>
    if minW ≤ currentWords.length then
      let currentTitle := joinWords currentWords
      match step currentTitle with
      | .unknownType => (.unknownType, [])
      | .result none _ =>
        if currentWords.length ≤ minW then (.exhausted best bs, [currentWords])
        else
          let r := retryGo step originalTitle minW fuel currentWords.dropLast
            best bs
          (r.1, currentWords :: r.2)
      | .result (some v) s =>
        if 60 ≤ s ∨ currentTitle = originalTitle then (.found v s, [currentWords])
        else
          let b2 := if bs < s then some v else best
          let bs2 := if bs < s then s else bs
          if currentWords.length ≤ minW then (.exhausted b2 bs2, [currentWords])
          else
            let r := retryGo step originalTitle minW fuel currentWords.dropLast
              b2 bs2
            (r.1, currentWords :: r.2)
    else (.exhausted best bs, [])

/-- The retry loop entered with the full word list, no best result and
best score 0. -/
def matchRetryLoop (step : String → SearchStep ρ) (originalTitle : String)
    (minW : Nat) (ws : List String) : RetryExit ρ × List (List String) :=
  retryGo step originalTitle minW (ws.length + 1) ws none 0

/-- The per-iteration type dispatch of `_match_with_retry`: search as a
movie, as a TV show / anime, or report the unknown type (which the loop
turns into an immediate `(None, 0)` return).  The media type is fixed
for the whole loop. -/
def mkStep (searchMovie searchTv : String → Option ρ × ℚ) (m : MediaInfo) :
    String → SearchStep ρ := fun t =>
  if m.type = "movie" then .result (searchMovie t).1 (searchMovie t).2
  else if m.type = "tvshow" ∨ m.type = "anime" then
    .result (searchTv t).1 (searchTv t).2
  else .unknownType

/-- The code after the `while` loop of `_match_with_retry`: an early
return keeps `media_info` untouched; the exhausted path assigns
`media_info.title = original_title` (a no-op, the title was never
changed) and returns the best result seen, if any. -/
def retryFinish (m : MediaInfo) (originalTitle : String)
    (r : RetryExit ρ × List (List String)) :
    MediaInfo × Option ρ × ℚ × List (List String) :=
  match r.1 with
  | .found v s => (m, some v, s, r.2)
  | .unknownType => (m, none, 0, r.2)
  | .exhausted best bs =>
    let m2 := { m with title := originalTitle }
    match best with
    | some b => (m2, some b, bs, r.2)
    | none => (m2, none, 0, r.2)

/-- `TMDBMatcher._match_with_retry`: split the title, compute the floor,
run the loop with the per-type search, and finish as the source does.
The first component is the `MediaInfo` as the source's mutations leave
it; the last records the word list of every search performed. -/
def matchWithRetry (searchMovie searchTv : String → Option ρ × ℚ)
    (m : MediaInfo) : MediaInfo × Option ρ × ℚ × List (List String) :=
  let originalTitle := m.title
  let originalWords := pySplitWs originalTitle
  let minW := minWordCount originalWords.length
  retryFinish m originalTitle
    (matchRetryLoop (mkStep searchMovie searchTv m) originalTitle minW
      originalWords)

/-- `TMDBMatcher.match_media`: cache lookup first (which may evict an
expired entry), then the retry match; a found result is written through
to the cache, a missing one is returned as `None` without a write.
Returns the result, the final cache and the `MediaInfo` as left by the
call. -/
def matchMedia (expiry now : Int)
    (searchMovie searchTv : String → Option ρ × ℚ) (m : MediaInfo)
    (cache : Cache ρ) : Option ρ × Cache ρ × MediaInfo :=
  let key := cacheKeyData m
  let gc := getFromCache expiry now key cache
  match gc.1 with
  | some d => (some d, gc.2, m)
  | none =>
    let mr := matchWithRetry searchMovie searchTv m
    match mr.2.1 with
    | some r => (some r, setCache now key r gc.2, mr.1)
    | none => (none, gc.2, mr.1)

/-! ## Helper lemmas -/

theorem retryFinish_fst {ρ : Type} (m : MediaInfo)
    (r : RetryExit ρ × List (List String)) :
    (retryFinish m m.title r).1 = m := by
  rcases r with ⟨e, log⟩
  cases e with
  | found v s => rfl
  | unknownType => rfl
  | exhausted best bs => cases best <;> rfl

theorem retryFinish_log {ρ : Type} (m : MediaInfo) (t : String)
    (r : RetryExit ρ × List (List String)) :
    (retryFinish m t r).2.2.2 = r.2 := by
  rcases r with ⟨e, log⟩
  cases e with
  | found v s => rfl
  | unknownType => rfl
  | exhausted best bs => cases best <;> rfl

theorem lookupC_insertC_self {α : Type} (k : String) (e : CacheEntry α) :
    ∀ c : Cache α, lookupC k (insertC k e c) = some e := by
  intro c
  induction c with
  | nil =>
    unfold insertC lookupC
    rw [List.find?_cons_of_pos _ (by simp)]
    rfl
  | cons p rest ih =>
    by_cases h : p.1 = k
    · rw [insertC, if_pos h]
      unfold lookupC
      rw [List.find?_cons_of_pos _ (by simp)]
      rfl
    · rw [insertC, if_neg h]
      unfold lookupC
      rw [List.find?_cons_of_neg _ (by simp [h])]
      exact ih

theorem lookupC_eraseC_self {α : Type} (k : String) :
    ∀ c : Cache α, lookupC k (eraseC k c) = none := by
  intro c
  induction c with
  | nil => rfl
  | cons p rest ih =>
    by_cases h : p.1 = k
    · unfold eraseC at ih ⊢
      rw [List.filter_cons, if_neg (by simp [h])]
      exact ih
    · unfold eraseC at ih ⊢
      rw [List.filter_cons, if_pos (by simp [h])]
      unfold lookupC at ih ⊢
      rw [List.find?_cons_of_neg _ (by simp [h])]
      exact ih

theorem lookupC_eraseC_none {α : Type} (k k2 : String) :
    ∀ c : Cache α, lookupC k c = none → lookupC k (eraseC k2 c) = none := by
  intro c
  induction c with
  | nil => intro _; rfl
  | cons p rest ih =>
    intro h
    by_cases hk : p.1 = k
    · exfalso
      unfold lookupC at h
      rw [List.find?_cons_of_pos _ (by simp [hk])] at h
      simp at h
    · unfold lookupC at h
      rw [List.find?_cons_of_neg _ (by simp [hk])] at h
      by_cases h2 : p.1 = k2
      · unfold eraseC at ih ⊢
        rw [List.filter_cons, if_neg (by simp [h2])]
        exact ih h
      · unfold eraseC at ih ⊢
        rw [List.filter_cons, if_pos (by simp [h2])]
        unfold lookupC at ih ⊢
        rw [List.find?_cons_of_neg _ (by simp [hk])]
        exact ih h

theorem getFromCache_no_new_entry {α : Type} (expiry now : Int)
    (key k : String) (c : Cache α) (h : lookupC k c = none) :
    lookupC k (getFromCache expiry now key c).2 = none := by
  unfold getFromCache
  cases hl : lookupC key c with
  | none => simpa using h
  | some e =>
    by_cases hfresh : now - e.timestamp ≤ expiry
    · simpa [hfresh] using h
    · simp only [hfresh, if_false]
      exact lookupC_eraseC_none k key c h

theorem selectLoopTv_ok {ε γ δ δe δs μ : Type} (tvDetails : γ → Except ε δ)
    (epDet : γ → Except ε δe) (seDet : γ → Except ε δs)
    (seasonN episodeN : Option Nat)
    (build : γ → δ → Option δe × Option δs → μ) (score : γ → ℚ)
    (htv : ∀ c, ∃ d, tvDetails c = Except.ok d) :
    ∀ (l : List γ) (best : Option μ) (bs : ℚ),
      ∃ out, selectLoopTv tvDetails epDet seDet seasonN episodeN build score
        l best bs = Except.ok out := by
  intro l
  induction l with
  | nil => intro best bs; exact ⟨(best, bs), rfl⟩
  | cons c rest ih =>
    intro best bs
    obtain ⟨d, hd⟩ := htv c
    simp only [selectLoopTv, hd]
    by_cases h100 : (100 : ℚ) ≤ score c
    · rw [if_pos h100]
      exact ⟨_, rfl⟩
    · rw [if_neg h100]
      exact ih _ _

/-! ## Claims -/

/-- C1 (corrected): `is_multi_language` as produced by
`analyze_filename` is exactly the result of the explicit
multi-marker search `\W(multi|mult[i|í])\W` on the lower-cased
filename — independent of how many languages were detected (the
counterexample shows two distinct detected languages with the flag
false). -/
theorem multi_flag_iff_multi_marker (filename category : String) :
    (analyzeFilename filename category).is_multi_language =
      (extractLanguages (pyLower filename)).2 ∧
    ((analyzeFilename filename category).is_multi_language = true ↔
      (reSearch true reMultiMarker (pyLower filename)).isSome = true) :=
  ⟨rfl, Iff.rfl⟩

/-- C1 counterexample: `"movie.french.en.mkv"` detects the two distinct
languages French and English yet `is_multi_language` is false, refuting
the claimed "or more than one distinct language was detected"
disjunct. -/
theorem multi_flag_ignores_language_count_cex :
    (analyzeFilename "movie.french.en.mkv" "").languages =
      ["French", "English"] ∧
    ("French" : String) ≠ "English" ∧
    (analyzeFilename "movie.french.en.mkv" "").is_multi_language = false := by
  refine ⟨by decide, by decide, by decide⟩

/-- C2 (corrected): `"Show.Name.S02E05.1080p.mkv"` resolves to a TV show
with season 2, episode 5 and `full_season` false, as claimed; but
`"Show.Name.Season.3.COMPLETE.mkv"`, though typed as a TV show, yields
no season at all (season `none`, episode `none`, `full_season` false),
because `[Ss]eason\s*(\d{1,2})` requires whitespace after `Season` and
the filename has a dot. -/
theorem season_episode_extraction_examples :
    ((analyzeFilename "Show.Name.S02E05.1080p.mkv" "").type = "tvshow" ∧
     (analyzeFilename "Show.Name.S02E05.1080p.mkv" "").season = some 2 ∧
     (analyzeFilename "Show.Name.S02E05.1080p.mkv" "").episode = some 5 ∧
     (analyzeFilename "Show.Name.S02E05.1080p.mkv" "").full_season = false) ∧
    ((analyzeFilename "Show.Name.Season.3.COMPLETE.mkv" "").type = "tvshow" ∧
     (analyzeFilename "Show.Name.Season.3.COMPLETE.mkv" "").season = none ∧
     (analyzeFilename "Show.Name.Season.3.COMPLETE.mkv" "").episode = none ∧
     (analyzeFilename "Show.Name.Season.3.COMPLETE.mkv" "").full_season = false) := by
  exact ⟨⟨by decide, by decide, by decide, by decide⟩,
    ⟨by decide, by decide, by decide, by decide⟩⟩

/-- C2 counterexample: analyzing `"Show.Name.Season.3.COMPLETE.mkv"`
does not produce season 3 with a full-season flag; the season stays
unset and `full_season` stays false. -/
theorem season_dot_number_not_extracted_cex :
    (analyzeFilename "Show.Name.Season.3.COMPLETE.mkv" "").season ≠ some 3 ∧
    (analyzeFilename "Show.Name.Season.3.COMPLETE.mkv" "").full_season ≠ true := by
  refine ⟨by decide, by decide⟩

/-- C5 (confirmed): after `_set_cache` stores `d` under `k` at time `t`,
`_get_from_cache` within the expiry window returns exactly the stored
data and leaves the cache as is; after the window it returns `None` and
removes the entry for `k`. -/
theorem cache_roundtrip {α : Type} (c : Cache α) (k : String) (d : α)
    (t now expiry : Int) :
    (now - t ≤ expiry →
      getFromCache expiry now k (setCache t k d c) =
        (some d, setCache t k d c)) ∧
    (expiry < now - t →
      (getFromCache expiry now k (setCache t k d c)).1 = none ∧
      lookupC k (getFromCache expiry now k (setCache t k d c)).2 = none) := by
  have hl : lookupC k (setCache t k d c) = some ⟨d, t⟩ :=
    lookupC_insertC_self k ⟨d, t⟩ c
  constructor
  · intro h
    simp [getFromCache, hl, h]
  · intro h
    have hn : ¬ (now - t ≤ expiry) := not_le.mpr h
    have h2 := lookupC_eraseC_self k (setCache t k d c)
    constructor <;> simp [getFromCache, hl, hn, h2]

/-- C5 witness: a concrete round trip (fresh read at `now = 1`, expired
read at `now = 100`, expiry 10, store time 0). -/
theorem cache_roundtrip_witness :
    (getFromCache 10 1 "k" (setCache 0 "k" (7 : Nat) []) =
      (some 7, setCache 0 "k" (7 : Nat) [])) ∧
    ((getFromCache 10 100 "k" (setCache 0 "k" (7 : Nat) [])).1 = none ∧
      lookupC "k" (getFromCache 10 100 "k" (setCache 0 "k" (7 : Nat) [])).2 =
        none) :=
  ⟨(cache_roundtrip [] "k" 7 0 1 10).1 (by decide),
   (cache_roundtrip [] "k" 7 0 100 10).2 (by decide)⟩

/-- A `Char.ofNat` in the valid low range reads back its code point. -/
theorem toNat_charOfNat (n : Nat) (h : n < 55296) : (Char.ofNat n).toNat = n := by
  unfold Char.ofNat
  rw [dif_pos (Or.inl h : n.isValidChar)]
  rfl

/-- Upper-casing a character never yields an ASCII lower-case letter. -/
theorem isLowerAscii_pyUpperChar (c : Char) :
    isLowerAscii (pyUpperChar c) = false := by
  unfold pyUpperChar
  by_cases h : 97 ≤ c.toNat ∧ c.toNat ≤ 122
  · rw [if_pos h]
    unfold isLowerAscii
    rw [toNat_charOfNat _ (by omega)]
    simp only [Bool.and_eq_false_imp, decide_eq_true_eq, decide_eq_false_iff_not]
    omega
  · rw [if_neg h]
    unfold isLowerAscii
    simp only [Bool.and_eq_false_imp, decide_eq_true_eq, decide_eq_false_iff_not]
    omega

/-- Members of `dropWhile` are members of the list. -/
theorem mem_of_mem_dropWhileL {α : Type} (p : α → Bool) :
    ∀ (l : List α) (x : α), x ∈ l.dropWhile p → x ∈ l := by
  intro l
  induction l with
  | nil => intro x hx; simp [List.dropWhile] at hx
  | cons a t ih =>
    intro x hx
    rw [List.dropWhile_cons] at hx
    split at hx
    · exact List.mem_cons_of_mem _ (ih x hx)
    · exact hx

/-- Is a string free of ASCII lower-case letters?  (The reading of the
specification's "normalized all-uppercase token".) -/
def noLowerTok (s : String) : Bool := s.data.all (fun c => !(isLowerAscii c))

/-- Unset, or an all-uppercase token. -/
def optUpper : Option String → Bool
  | none => true
  | some v => noLowerTok v

/-- The extraction normalization `.upper().rstrip()` produces a string
with no lower-case ASCII letter. -/
theorem noLowerTok_normUp (v : String) : noLowerTok (normUp v) = true := by
  unfold normUp pyRstrip pyUpper noLowerTok
  rw [List.all_eq_true]
  intro c hc
  have h1 : c ∈ (v.data.map pyUpperChar).reverse.dropWhile isSpaceChar :=
    List.mem_reverse.mp hc
  have h2 : c ∈ (v.data.map pyUpperChar).reverse :=
    mem_of_mem_dropWhileL _ _ _ h1
  have h3 : c ∈ v.data.map pyUpperChar := List.mem_reverse.mp h2
  obtain ⟨c0, _, rfl⟩ := List.mem_map.mp h3
  simp [isLowerAscii_pyUpperChar]

/-- Whatever the attribute loop extracts is unset or all-uppercase. -/
theorem optUpper_extractAttr :
    ∀ (pats : List Re) (s : String), optUpper (extractAttr pats s) = true := by
  intro pats
  induction pats with
  | nil => intro s; rfl
  | cons p rest ih =>
    intro s
    cases hm : reSearch true p s with
    | none =>
      unfold extractAttr
      rw [hm]
      exact ih s
    | some m =>
      unfold extractAttr
      rw [hm]
      show optUpper ((groupStr s m 1).map normUp) = true
      cases groupStr s m 1 with
      | none => rfl
      | some v => exact noLowerTok_normUp v

/-- The version default is `"Original"` or an uppercase extracted
token. -/
theorem versionOf_spec (o : Option String) (h : optUpper o = true) :
    versionOf o = some "Original" ∨ optUpper (versionOf o) = true := by
  cases o with
  | none => left; rfl
  | some v =>
    by_cases hv : v = ""
    · left
      simp [versionOf, hv]
    · right
      simpa [versionOf, hv, optUpper] using h

/-- The attribute loop returns the normalized capture of the first
pattern (in list order) whose search succeeds. -/
theorem extractAttr_of_firstMatch :
    ∀ (pats : List Re) (s : String) (p : Re) (v : String),
      pats.find? (fun q => (reSearch true q s).isSome) = some p →
      (reSearch true p s).bind (fun mm => groupStr s mm 1) = some v →
      extractAttr pats s = some (normUp v) := by
  intro pats
  induction pats with
  | nil =>
    intro s p v hfind _
    exact absurd hfind (by simp)
  | cons q rest ih =>
    intro s p v hfind hcap
    cases hm : reSearch true q s with
    | some m =>
      have hq : q = p := by
        simp only [List.find?, hm, Option.isSome_some, Option.some.injEq]
          at hfind
        exact hfind
      subst hq
      rw [hm] at hcap
      have hcap2 : groupStr s m 1 = some v := hcap
      unfold extractAttr
      rw [hm]
      show (groupStr s m 1).map normUp = some (normUp v)
      rw [hcap2]
      rfl
    | none =>
      simp only [List.find?, hm, Option.isSome_none] at hfind
      unfold extractAttr
      rw [hm]
      exact ih s p v hfind hcap

/-- C7 (confirmed): when some resolution pattern matches the lower-cased
filename, the `resolution` set by `analyze_filename` is the uppercased,
right-trimmed group-1 capture of the first pattern of
`RESOLUTION_PATTERNS` (priority order) that matches — regardless of
where in the filename tokens of lower-priority patterns occur. -/
theorem resolution_first_priority_pattern (filename category : String)
    (p : Re) (v : String)
    (hfind : RESOLUTION_PATTERNS.find?
        (fun q => (reSearch true q (pyLower filename)).isSome) = some p)
    (hcap : (reSearch true p (pyLower filename)).bind
        (fun mm => groupStr (pyLower filename) mm 1) = some v) :
    (analyzeFilename filename category).resolution =
      some (pyRstrip (pyUpper v)) :=
  extractAttr_of_firstMatch RESOLUTION_PATTERNS (pyLower filename) p v hfind
    hcap

/-- C7 witness: `"Movie.720p.1080p.mkv"` carries a 720p token before the
1080p token, yet the first matching pattern in priority order is the
1080p one, so the resolution is `"1080P"`. -/
theorem resolution_first_priority_pattern_witness :
    (analyzeFilename "Movie.720p.1080p.mkv" "").resolution =
      some (pyRstrip (pyUpper "1080p")) :=
  resolution_first_priority_pattern "Movie.720p.1080p.mkv" ""
    ((RESOLUTION_PATTERNS.get? 1).getD Re.eps) "1080p" (by decide) (by decide)

/-- C8 (corrected): for the filename-only analysis, `source`, `team`,
`resolution`, `video_codec`, `audio_codec`, `hdr` and `platform` are
each unset or an all-uppercase token, and `version` is either such a
token or the mixed-case default `"Original"`.  The claimed invariant
fails as stated: the `version` default and the file-probe merge (see the
counterexample) both produce values with lower-case letters. -/
theorem filename_fields_normalized_uppercase (filename category : String) :
    optUpper (analyzeFilename filename category).source = true ∧
    optUpper (analyzeFilename filename category).team = true ∧
    optUpper (analyzeFilename filename category).resolution = true ∧
    optUpper (analyzeFilename filename category).video_codec = true ∧
    optUpper (analyzeFilename filename category).audio_codec = true ∧
    optUpper (analyzeFilename filename category).hdr = true ∧
    optUpper (analyzeFilename filename category).platform = true ∧
    ((analyzeFilename filename category).version = some "Original" ∨
      optUpper (analyzeFilename filename category).version = true) := by
  refine ⟨?_, ?_, ?_, ?_, ?_, ?_, ?_, ?_⟩
  · exact optUpper_extractAttr FILE_SOURCE_PATTERNS (pyLower filename)
  · exact optUpper_extractAttr TEAM_PATTERNS (pyLower filename)
  · exact optUpper_extractAttr RESOLUTION_PATTERNS (pyLower filename)
  · exact optUpper_extractAttr VIDEO_CODEC_PATTERNS (pyLower filename)
  · exact optUpper_extractAttr AUDIO_CODEC_PATTERNS (pyLower filename)
  · exact optUpper_extractAttr HDR_PATTERNS (pyLower filename)
  · exact optUpper_extractAttr PLATFORM_PATTERNS (pyLower filename)
  · exact versionOf_spec _
      (optUpper_extractAttr SPECIAL_VERSION_PATTERNS (pyLower filename))

/-- C8 counterexample: the probe merge writes the probe's mixed-case
values verbatim (`1080p` from the stream height, `x265` from codec
cleaning), and the filename-only `version` default `"Original"` is
itself not all-uppercase. -/
theorem normalization_mixed_case_cex :
    (enhanceWithFileAnalysis (analyzeFilename "film.mkv" "")
        { video_codec := some (cleanCodecName "hevc"),
          audio_codec := some (cleanCodecName "truehd"),
          resolution := some (resolutionOfHeight 1080) }).resolution =
      some "1080p" ∧
    noLowerTok "1080p" = false ∧
    (enhanceWithFileAnalysis (analyzeFilename "film.mkv" "")
        { video_codec := some (cleanCodecName "hevc"),
          audio_codec := some (cleanCodecName "truehd"),
          resolution := some (resolutionOfHeight 1080) }).video_codec =
      some "x265" ∧
    noLowerTok "x265" = false ∧
    (analyzeFilename "film.mkv" "").version = some "Original" ∧
    noLowerTok "Original" = false := by
  refine ⟨by decide, by decide, by decide, by decide, by decide, by decide⟩

/-- C9 (confirmed): the analyzer is total — the embedding returns a
`MediaInfo` for every filename and category string, mirroring the
exception-free source — and a pattern miss leaves the corresponding
field unset, with `version` defaulting to `"Original"`. -/
theorem analyze_unmatched_fields_unset (filename category : String) :
    (extractAttr RESOLUTION_PATTERNS (pyLower filename) = none →
      (analyzeFilename filename category).resolution = none) ∧
    (extractAttr VIDEO_CODEC_PATTERNS (pyLower filename) = none →
      (analyzeFilename filename category).video_codec = none) ∧
    (extractAttr HDR_PATTERNS (pyLower filename) = none →
      (analyzeFilename filename category).hdr = none) ∧
    (extractAttr PLATFORM_PATTERNS (pyLower filename) = none →
      (analyzeFilename filename category).platform = none) ∧
    (extractAttr AUDIO_CODEC_PATTERNS (pyLower filename) = none →
      (analyzeFilename filename category).audio_codec = none) ∧
    (extractAttr FILE_SOURCE_PATTERNS (pyLower filename) = none →
      (analyzeFilename filename category).source = none) ∧
    (extractAttr TEAM_PATTERNS (pyLower filename) = none →
      (analyzeFilename filename category).team = none) ∧
    (reSearch false reYear (pyLower filename) = none →
      (analyzeFilename filename category).year = none) ∧
    (extractAttr SPECIAL_VERSION_PATTERNS (pyLower filename) = none →
      (analyzeFilename filename category).version = some "Original") := by
  refine ⟨?_, ?_, ?_, ?_, ?_, ?_, ?_, ?_, ?_⟩
  · intro h; exact h
  · intro h; exact h
  · intro h; exact h
  · intro h; exact h
  · intro h; exact h
  · intro h; exact h
  · intro h; exact h
  · intro h
    show (reSearch false reYear (pyLower filename)).map
      (fun m => pyStrToNat (group0Str (pyLower filename) m)) = none
    rw [h]
    rfl
  · intro h
    show versionOf (extractAttr SPECIAL_VERSION_PATTERNS (pyLower filename)) =
      some "Original"
    rw [h]
    rfl

/-- C9 witness: the one-character filename `"x"` matches no pattern; all
fields stay unset and the version defaults. -/
theorem analyze_unmatched_fields_unset_witness :
    (analyzeFilename "x" "").resolution = none ∧
    (analyzeFilename "x" "").video_codec = none ∧
    (analyzeFilename "x" "").hdr = none ∧
    (analyzeFilename "x" "").platform = none ∧
    (analyzeFilename "x" "").audio_codec = none ∧
    (analyzeFilename "x" "").source = none ∧
    (analyzeFilename "x" "").team = none ∧
    (analyzeFilename "x" "").year = none ∧
    (analyzeFilename "x" "").version = some "Original" :=
  ⟨(analyze_unmatched_fields_unset "x" "").1 (by decide),
   (analyze_unmatched_fields_unset "x" "").2.1 (by decide),
   (analyze_unmatched_fields_unset "x" "").2.2.1 (by decide),
   (analyze_unmatched_fields_unset "x" "").2.2.2.1 (by decide),
   (analyze_unmatched_fields_unset "x" "").2.2.2.2.1 (by decide),
   (analyze_unmatched_fields_unset "x" "").2.2.2.2.2.1 (by decide),
   (analyze_unmatched_fields_unset "x" "").2.2.2.2.2.2.1 (by decide),
   (analyze_unmatched_fields_unset "x" "").2.2.2.2.2.2.2.1 (by decide),
   (analyze_unmatched_fields_unset "x" "").2.2.2.2.2.2.2.2 (by decide)⟩

/-- C10 (confirmed): `match_media` (and its retry helper) never mutates
the `MediaInfo` argument: the record threaded through the model — which
performs exactly the source's assignments, including the retry loop's
restore of the saved original title — is returned unchanged on the
cache-hit, success and failure paths alike. -/
theorem match_media_preserves_media_info {ρ : Type} (expiry now : Int)
    (sM sT : String → Option ρ × ℚ) (m : MediaInfo) (cache : Cache ρ) :
    (matchWithRetry sM sT m).1 = m ∧
    (matchMedia expiry now sM sT m cache).2.2 = m := by
  constructor
  · exact retryFinish_fst m _
  · simp only [matchMedia]
    split
    · rfl
    · split
      · exact retryFinish_fst m _
      · exact retryFinish_fst m _

/-- When every remaining candidate scores at most the running best
score, the loop keeps the running best: an equal score never replaces it
(strict `>` comparison), and a possible early exit returns the same
state. -/
theorem selectLoopE_all_le {γ : Type} (score : γ → ℚ) :
    ∀ (l : List γ) (best : Option γ) (bs : ℚ),
      (∀ x ∈ l, score x ≤ bs) →
      selectLoopE (fun c => (Except.ok c : Except Empty γ)) score l best bs =
        .ok (best, bs) := by
  intro l
  induction l with
  | nil => intro best bs _; rfl
  | cons c rest ih =>
    intro best bs h
    have hc : score c ≤ bs := h c (List.mem_cons_self c rest)
    have hlt : ¬ bs < score c := not_lt.mpr hc
    simp only [selectLoopE]
    rw [if_neg hlt, if_neg hlt]
    by_cases h100 : (100 : ℚ) ≤ score c
    · rw [if_pos h100]
    · rw [if_neg h100]
      exact ih best bs (fun x hx => h x (List.mem_cons_of_mem _ hx))

/-- With a strict unique maximizer `c` above the running best score and
below the early-exit threshold, the loop ends selecting `c` with its
score. -/
theorem selectLoopE_unique_max {γ : Type} (score : γ → ℚ) (c : γ) :
    ∀ (l : List γ) (best : Option γ) (bs : ℚ),
      c ∈ l → bs < score c → score c < 100 →
      (∀ d ∈ l, d ≠ c → score d < score c) →
      selectLoopE (fun x => (Except.ok x : Except Empty γ)) score l best bs =
        .ok (some c, score c) := by
  intro l
  induction l with
  | nil =>
    intro best bs hc
    exact absurd hc (List.not_mem_nil c)
  | cons a rest ih =>
    intro best bs hc hbs h100 hmax
    simp only [selectLoopE]
    by_cases hac : a = c
    · subst hac
      have hle : ∀ x ∈ rest, score x ≤ score a := by
        intro x hx
        by_cases hxa : x = a
        · subst hxa; exact le_refl _
        · exact le_of_lt (hmax x (List.mem_cons_of_mem _ hx) hxa)
      rw [if_pos hbs, if_pos hbs, if_neg (not_le.mpr h100)]
      exact selectLoopE_all_le score rest (some a) (score a) hle
    · have ha : score a < score c := hmax a (List.mem_cons_self a rest) hac
      have ha100 : ¬ (100 : ℚ) ≤ score a := not_le.mpr (lt_trans ha h100)
      have hc2 : c ∈ rest := by
        rcases List.mem_cons.mp hc with h | h
        · exact absurd h.symm hac
        · exact h
      have hmax2 : ∀ d ∈ rest, d ≠ c → score d < score c :=
        fun d hd => hmax d (List.mem_cons_of_mem _ hd)
      by_cases hba : bs < score a
      · rw [if_pos hba, if_pos hba, if_neg ha100]
        exact ih (some a) (score a) hc2 ha h100 hmax2
      · rw [if_neg hba, if_neg hba, if_neg ha100]
        exact ih best bs hc2 hbs h100 hmax2

/-- With a strict unique maximizer of positive score below the
early-exit threshold, the scoring loop selects it. -/
theorem selectBest_unique_max {γ : Type} (score : γ → ℚ) (l : List γ)
    (c : γ) (hc : c ∈ l) (hpos : 0 < score c) (h100 : score c < 100)
    (hmax : ∀ d ∈ l, d ≠ c → score d < score c) :
    selectBest score l = (some c, score c) := by
  unfold selectBest
  rw [selectLoopE_unique_max score c l none 0 hc hpos h100 hmax]

/-- With no candidate scoring above zero, the loop selects nothing. -/
theorem selectBest_nonpos {γ : Type} (score : γ → ℚ) (l : List γ)
    (h : ∀ x ∈ l, score x ≤ 0) : selectBest score l = (none, 0) := by
  unfold selectBest
  rw [selectLoopE_all_le score l none 0 h]

/-- C4 (corrected): when no candidate reaches the early-exit threshold
(every score < 100) and one candidate strictly maximizes the score, the
candidate selected by the scoring loop is the same for every
presentation order (exactly equal scores keep the first seen, by the
strict `>` comparison).  The claim as stated fails: the early exit at
score ≥ 100 makes the selection order-dependent even between candidates
with different scores — see the counterexample, whose scores 120 (exact
title + exact year) and 100 (exact title) are both reachable by the
scoring table. -/
theorem selection_order_independent_no_early_exit {γ : Type}
    (score : γ → ℚ) (l l2 : List γ) (hperm : l.Perm l2)
    (h100 : ∀ x ∈ l, score x < 100)
    (huniq : ∃ c, c ∈ l ∧ ∀ d ∈ l, d ≠ c → score d < score c) :
    selectBest score l = selectBest score l2 := by
  obtain ⟨c, hc, hmax⟩ := huniq
  by_cases hpos : 0 < score c
  · rw [selectBest_unique_max score l c hc hpos (h100 c hc) hmax,
      selectBest_unique_max score l2 c (hperm.mem_iff.mp hc) hpos (h100 c hc)
        (fun d hd hdc => hmax d (hperm.mem_iff.mpr hd) hdc)]
  · have hall : ∀ x ∈ l, score x ≤ 0 := by
      intro x hx
      by_cases hxc : x = c
      · subst hxc; exact not_lt.mp hpos
      · exact le_trans (le_of_lt (hmax x hx hxc)) (not_lt.mp hpos)
    rw [selectBest_nonpos score l hall,
      selectBest_nonpos score l2 (fun x hx => hall x (hperm.mem_iff.mpr hx))]

/-- C4 witness: two orders of the same two candidates with scores 50 and
10 (all below 100, unique maximizer) select the same candidate. -/
theorem selection_order_independent_witness :
    selectBest (fun n : Nat => if n = 0 then (50 : ℚ) else 10) [1, 0] =
      selectBest (fun n : Nat => if n = 0 then (50 : ℚ) else 10) [0, 1] :=
  selection_order_independent_no_early_exit
    (fun n : Nat => if n = 0 then (50 : ℚ) else 10) [1, 0] [0, 1]
    (List.Perm.swap 0 1 []) (by decide) ⟨0, by decide, by decide⟩

/-- C4 counterexample: candidates scoring 120 and 100 — distinct scores,
so the claimed tie-break exception does not apply — are selected
differently depending on order, because a leading 100-score candidate
triggers the early exit before the 120-score candidate is examined. -/
theorem early_exit_order_dependent_cex :
    List.Perm [0, 1] [1, 0] ∧
    (fun n : Nat => if n = 0 then (120 : ℚ) else 100) 0 ≠
      (fun n : Nat => if n = 0 then (120 : ℚ) else 100) 1 ∧
    selectBest (fun n : Nat => if n = 0 then (120 : ℚ) else 100) [0, 1] ≠
      selectBest (fun n : Nat => if n = 0 then (120 : ℚ) else 100) [1, 0] := by
  refine ⟨List.Perm.swap 1 0 [], by decide, by decide⟩

/-- Bound on the retry loop: whatever the search returns, every logged
search uses at least `minW` words and at most `cw.length - minW + 1`
searches happen. -/
theorem retryGo_log_bound {ρ : Type} (step : String → SearchStep ρ)
    (orig : String) (minW : Nat) :
    ∀ (fuel : Nat) (cw : List String) (best : Option ρ) (bs : ℚ),
      (retryGo step orig minW fuel cw best bs).2.length ≤
        cw.length - minW + 1 ∧
      ∀ ws ∈ (retryGo step orig minW fuel cw best bs).2,
        minW ≤ ws.length := by
  intro fuel
  induction fuel with
  | zero =>
    intro cw best bs
    refine ⟨by simp [retryGo], ?_⟩
    intro ws hws
    simp [retryGo] at hws
  | succ fuel ih =>
    intro cw best bs
    by_cases hlen : minW ≤ cw.length
    · simp only [retryGo, if_pos hlen]
      cases hstep : step (joinWords cw) with
      | unknownType =>
        dsimp only
        refine ⟨by simp, ?_⟩
        intro ws hws
        simp at hws
      | result r s =>
        cases r with
        | none =>
          dsimp only
          by_cases hbr : cw.length ≤ minW
          · rw [if_pos hbr]
            refine ⟨by simp, ?_⟩
            intro ws hws
            rw [List.mem_singleton] at hws
            subst hws
            exact hlen
          · rw [if_neg hbr]
            obtain ⟨ih1, ih2⟩ := ih cw.dropLast best bs
            have hdl : cw.dropLast.length = cw.length - 1 :=
              List.length_dropLast cw
            refine ⟨?_, ?_⟩
            · simp only [List.length_cons]
              rw [hdl] at ih1
              omega
            · intro ws hws
              rcases List.mem_cons.mp hws with h | h
              · subst h; exact hlen
              · exact ih2 ws h
        | some v =>
          dsimp only
          by_cases hret : 60 ≤ s ∨ joinWords cw = orig
          · rw [if_pos hret]
            refine ⟨by simp, ?_⟩
            intro ws hws
            rw [List.mem_singleton] at hws
            subst hws
            exact hlen
          · rw [if_neg hret]
            by_cases hbr : cw.length ≤ minW
            · rw [if_pos hbr]
              refine ⟨by simp, ?_⟩
              intro ws hws
              rw [List.mem_singleton] at hws
              subst hws
              exact hlen
            · rw [if_neg hbr]
              obtain ⟨ih1, ih2⟩ := ih cw.dropLast
                (if bs < s then some v else best) (if bs < s then s else bs)
              have hdl : cw.dropLast.length = cw.length - 1 :=
                List.length_dropLast cw
              refine ⟨?_, ?_⟩
              · simp only [List.length_cons]
                rw [hdl] at ih1
                omega
              · intro ws hws
                rcases List.mem_cons.mp hws with h | h
                · subst h; exact hlen
                · exact ih2 ws h
    · simp only [retryGo, if_neg hlen]
      refine ⟨by simp, ?_⟩
      intro ws hws
      simp at hws

/-- C3 (corrected): the retry loop terminates (the embedding is a total
function) and, with the code's actual floor
`minWordCount N = ⌊0.6·N + 0.5⌋` (round-half-up of `0.6·N`, `N` the
original title's word count), every search of `_match_with_retry` uses a
title of at least `minWordCount N` words and at most
`N - minWordCount N + 1` searches are performed, for every behavior of
the search.  The claimed `⌈0.6·N⌉` floor and its attempt bound fail on
the code — see the counterexample. -/
theorem retry_attempts_bounded {ρ : Type}
    (sM sT : String → Option ρ × ℚ) (m : MediaInfo) :
    ((matchWithRetry sM sT m).2.2.2).length ≤
      (pySplitWs m.title).length -
        minWordCount (pySplitWs m.title).length + 1 ∧
    ∀ ws ∈ (matchWithRetry sM sT m).2.2.2,
      minWordCount (pySplitWs m.title).length ≤ ws.length := by
  have hlog : (matchWithRetry sM sT m).2.2.2 =
      (matchRetryLoop (mkStep sM sT m) m.title
        (minWordCount (pySplitWs m.title).length) (pySplitWs m.title)).2 :=
    retryFinish_log m m.title _
  rw [hlog]
  exact retryGo_log_bound (mkStep sM sT m) m.title
    (minWordCount (pySplitWs m.title).length)
    ((pySplitWs m.title).length + 1) (pySplitWs m.title) none 0

/-- C3 witness: for the two-word title `"aa bb"` with every search
failing, the shortened search `["aa"]` is logged and respects the code's
round-half-up floor. -/
theorem retry_attempts_bounded_witness :
    minWordCount 2 ≤ (["aa"] : List String).length :=
  (retry_attempts_bounded (fun _ => ((none : Option Nat), (0 : ℚ)))
    (fun _ => (none, 0)) { title := "aa bb" }).2 ["aa"] (by decide)

/-- The `⌈0.6·N⌉` word floor asserted by the specification's claim
(`(3n+4)/5` is the ceiling of `3n/5`), kept for comparison with the
code's round-half-up floor. -/
def ceilSixTenths (n : Nat) : Nat := (3 * n + 4) / 5

/-- C3 counterexample: for a two-word title with every search failing,
the code performs two searches — above the claimed bound
`2 − ⌈1.2⌉ + 1 = 1` — and the second search uses a one-word title,
below the claimed `⌈1.2⌉ = 2` word floor. -/
theorem retry_floor_ceil_cex :
    (matchWithRetry (fun _ => ((none : Option Nat), (0 : ℚ)))
        (fun _ => (none, 0)) { title := "aa bb" }).2.2.2 =
      [["aa", "bb"], ["aa"]] ∧
    ceilSixTenths 2 = 2 ∧
    2 - ceilSixTenths 2 + 1 < 2 ∧
    (["aa"] : List String).length < ceilSixTenths 2 := by
  refine ⟨by decide, by decide, by decide, by decide⟩

/-- C6 (corrected): no exception from a catalog call propagates out of
`_match_movie` / `_match_tvshow`, but the exceptions do not all produce
`(None, 0)`.  In `_match_movie`, a raising search and a raising details
fetch inside the candidate loop both yield `(None, 0)` (conjuncts 1 and
2); in `_match_tvshow`, a raising search and a raising `tv.details`
fetch yield `(None, 0)` (conjuncts 3 and 4), while a season- or
episode-details exception is absorbed by the loop's inner `try/except`
and the loop runs to a normal result for every behavior of those two
calls (conjunct 5) — possibly a non-`None` match, as the counterexample
shows.  And when the cache lookup misses and the retry yields no result,
`match_media` returns `None` and writes no cache entry: the final cache
is exactly the post-lookup cache, which differs from the input cache at
most by the eviction of an expired entry under the queried key
(conjuncts 6–8); the claim's "cache left unchanged" fails because of
that eviction — see the counterexample. -/
theorem match_errors_absorbed_no_cache_write {ε γ δ δe δs μ ρ : Type}
    (e : ε) (r2 r2b r2c r2d : Except ε (List γ)) (build : γ → Except ε μ)
    (score : γ → ℚ) (l : List γ) (e2 : ε)
    (hloop : selectLoopE build score l none 0 = .error e2)
    (tvD1 tvD2 : γ → Except ε δ) (epDet : γ → Except ε δe)
    (seDet : γ → Except ε δs) (seasonN episodeN : Option Nat)
    (buildTv : γ → δ → Option δe × Option δs → μ) (l2 : List γ) (e3 : ε)
    (hloopTv : selectLoopTv tvD1 epDet seDet seasonN episodeN buildTv score
      l2 none 0 = .error e3)
    (htv : ∀ c, ∃ d, tvD2 c = Except.ok d)
    (lt : List γ) (bestt : Option μ) (bst : ℚ)
    (expiry now : Int) (sM sT : String → Option ρ × ℚ) (m : MediaInfo)
    (cache : Cache ρ)
    (hmiss : (getFromCache expiry now (cacheKeyData m) cache).1 = none)
    (hnone : (matchWithRetry sM sT m).2.1 = none) :
    matchMovieRun (Except.error e) r2 build score = (none, 0) ∧
    matchMovieRun (Except.ok l) r2b build score = (none, 0) ∧
    matchTvshowRun (Except.error e) r2c tvD1 epDet seDet seasonN episodeN
      buildTv score = (none, 0) ∧
    matchTvshowRun (Except.ok l2) r2d tvD1 epDet seDet seasonN episodeN
      buildTv score = (none, 0) ∧
    isOkE (selectLoopTv tvD2 epDet seDet seasonN episodeN buildTv score
      lt bestt bst) = true ∧
    (matchMedia expiry now sM sT m cache).1 = none ∧
    (matchMedia expiry now sM sT m cache).2.1 =
      (getFromCache expiry now (cacheKeyData m) cache).2 ∧
    ∀ k, lookupC k cache = none →
      lookupC k (matchMedia expiry now sM sT m cache).2.1 = none := by
  have hcc : (matchMedia expiry now sM sT m cache).1 = none ∧
      (matchMedia expiry now sM sT m cache).2.1 =
        (getFromCache expiry now (cacheKeyData m) cache).2 := by
    constructor
    · simp only [matchMedia, hmiss, hnone]
    · simp only [matchMedia, hmiss, hnone]
  refine ⟨rfl, ?_, rfl, ?_, ?_, hcc.1, hcc.2, ?_⟩
  · cases l with
    | nil => exact absurd hloop (by simp [selectLoopE])
    | cons a rest =>
      show (match selectLoopE build score (a :: rest) none 0 with
        | .ok r => r
        | .error _ => ((none : Option μ), (0 : ℚ))) = (none, 0)
      rw [hloop]
  · cases l2 with
    | nil => exact absurd hloopTv (by simp [selectLoopTv])
    | cons a rest =>
      show (match selectLoopTv tvD1 epDet seDet seasonN episodeN buildTv
          score (a :: rest) none 0 with
        | .ok r => r
        | .error _ => ((none : Option μ), (0 : ℚ))) = (none, 0)
      rw [hloopTv]
  · obtain ⟨out, hout⟩ := selectLoopTv_ok tvD2 epDet seDet seasonN episodeN
      buildTv score htv lt bestt bst
    rw [hout]
    rfl
  · intro k hk
    rw [hcc.2]
    exact getFromCache_no_new_entry expiry now (cacheKeyData m) k cache hk

/-- C6 witness: a raising search and raising details fetches for both
media types, a TV loop whose season/episode lookups raise but whose
show-details succeed, and a failing match over an empty cache, all at
concrete inputs. -/
theorem match_errors_absorbed_no_cache_write_witness :
    matchMovieRun (Except.error ()) (Except.ok ([] : List Nat))
        (fun _ => (Except.error () : Except Unit Nat))
        (fun _ => (100 : ℚ)) = (none, 0) ∧
    matchMovieRun (Except.ok ([5] : List Nat)) (Except.ok [])
        (fun _ => (Except.error () : Except Unit Nat))
        (fun _ => (100 : ℚ)) = (none, 0) ∧
    matchTvshowRun (Except.error () : Except Unit (List Nat))
        (Except.ok []) (fun _ => (Except.error () : Except Unit Unit))
        (fun _ => (Except.error () : Except Unit Unit))
        (fun _ => (Except.error () : Except Unit Unit)) (some 1) (some 2)
        (fun c _ _ => (c : Nat)) (fun _ => (100 : ℚ)) = (none, 0) ∧
    matchTvshowRun (Except.ok ([5] : List Nat)) (Except.ok [])
        (fun _ => (Except.error () : Except Unit Unit))
        (fun _ => (Except.error () : Except Unit Unit))
        (fun _ => (Except.error () : Except Unit Unit)) (some 1) (some 2)
        (fun c _ _ => (c : Nat)) (fun _ => (100 : ℚ)) = (none, 0) ∧
    isOkE (selectLoopTv (fun _ => (Except.ok () : Except Unit Unit))
        (fun _ => (Except.error () : Except Unit Unit))
        (fun _ => (Except.error () : Except Unit Unit)) (some 1) (some 2)
        (fun c _ _ => (c : Nat)) (fun _ => (100 : ℚ)) [3] none 0) = true ∧
    (matchMedia 10 1 (fun _ => ((none : Option Nat), (0 : ℚ)))
        (fun _ => (none, 0)) { title := "x" } []).1 = none ∧
    (matchMedia 10 1 (fun _ => ((none : Option Nat), (0 : ℚ)))
        (fun _ => (none, 0)) { title := "x" } []).2.1 =
      (getFromCache 10 1 (cacheKeyData { title := "x" }) []).2 ∧
    lookupC "other" (matchMedia 10 1
      (fun _ => ((none : Option Nat), (0 : ℚ)))
      (fun _ => (none, 0)) { title := "x" } []).2.1 = none := by
  have T := match_errors_absorbed_no_cache_write ()
    (Except.ok ([] : List Nat)) (Except.ok []) (Except.ok []) (Except.ok [])
    (fun _ => (Except.error () : Except Unit Nat)) (fun _ => (100 : ℚ)) [5]
    () rfl (fun _ => (Except.error () : Except Unit Unit))
    (fun _ => (Except.ok () : Except Unit Unit))
    (fun _ => (Except.error () : Except Unit Unit))
    (fun _ => (Except.error () : Except Unit Unit)) (some 1) (some 2)
    (fun c _ _ => (c : Nat)) [5] () rfl (fun _ => ⟨(), rfl⟩) [3] none 0
    10 1 (fun _ => ((none : Option Nat), (0 : ℚ))) (fun _ => (none, 0))
    { title := "x" } [] rfl rfl
  exact ⟨T.1, T.2.1, T.2.2.1, T.2.2.2.1, T.2.2.2.2.1, T.2.2.2.2.2.1,
    T.2.2.2.2.2.2.1, T.2.2.2.2.2.2.2 "other" rfl⟩

/-- C6 counterexample: both halves of the claim fail on the code.  A
season/episode-details exception inside `_match_tvshow`'s candidate loop
is absorbed by the inner `try/except` and the call still returns a
non-`None` match with score 100, not `(None, 0)`; and with an expired
entry under the queried key and a failing match, `match_media` returns
`None` but the cache is not left unchanged — the lookup evicted the
entry. -/
theorem tvshow_details_exception_and_eviction_cex :
    matchTvshowRun (Except.ok ([3] : List Nat))
        (Except.ok ([] : List Nat))
        (fun _ => (Except.ok () : Except Unit Unit))
        (fun _ => (Except.error () : Except Unit Unit))
        (fun _ => (Except.error () : Except Unit Unit)) (some 1) (some 2)
        (fun c _ _ => (c : Nat)) (fun _ => (100 : ℚ)) = (some 3, 100) ∧
    ((some 3, (100 : ℚ)) : Option Nat × ℚ) ≠ (none, 0) ∧
    (matchMedia 10 11 (fun _ => ((none : Option Nat), (0 : ℚ)))
        (fun _ => (none, 0)) { title := "x" }
        [("x_None_movie_None_None", ⟨7, 0⟩)]).1 = none ∧
    (matchMedia 10 11 (fun _ => ((none : Option Nat), (0 : ℚ)))
        (fun _ => (none, 0)) { title := "x" }
        [("x_None_movie_None_None", ⟨7, 0⟩)]).2.1 ≠
      [("x_None_movie_None_None", ⟨7, 0⟩)] := by
  refine ⟨by decide, by decide, by decide, by decide⟩

end Qbit2Track
